import Mathlib

/-!
Verification of the coreSNTP library (serializer and client engine) against its
natural-language specification.

The development shallowly embeds `source/core_sntp_serializer.c` and
`source/core_sntp_client.c`:
* packet buffers are lists of bytes (`List Nat`, each entry a `uint8_t` value,
  hence reduced mod 256 on access);
* `uint32_t` values are natural numbers, with `< 2^32` bounds carried as
  hypotheses and wrap-around written out explicitly where the C code relies
  on it;
* `int32_t` values are integers (`Int`), produced through an explicit
  bit-pattern conversion `toInt32`;
* the fallible client-engine loops are embedded with explicit fuel and an
  oracle environment supplying the results of the user-provided hooks
  (get-time, UDP transport, DNS, authentication).
-/

namespace CoreSntp

/-! ### Data model (core_sntp_serializer.h) -/

/-- SNTP timestamp: seconds and 2^-32-second fractions since the 1900 epoch.
Both fields are `uint32_t` in the source; bounds are carried as hypotheses. -/
structure SntpTimestamp where
  seconds : Nat
  fractions : Nat
deriving DecidableEq

/-- Leap-second information enumeration (values 0..3 in the source). -/
inductive SntpLeapSecondInfo where
  | NoLeapSecond
  | LastMinuteHas61Seconds
  | LastMinuteHas59Seconds
  | AlarmServerNotSynchronized
deriving DecidableEq

/-- Status codes of the library.  The first ten constructors are declared in
`core_sntp_serializer.h` (in this order).  The remaining constructors are the
client-layer statuses used by `core_sntp_client.c`; their declaring header
`core_sntp_client.h` is not part of the provided sources, so they are modelled
from the spec's closed error taxonomy (§7). -/
inductive SntpStatus where
  | SntpSuccess
  | SntpErrorBadParameter
  | SntpRejectedResponseChangeServer
  | SntpRejectedResponseRetryWithBackoff
  | SntpRejectedResponseOtherCode
  | SntpErrorBufferTooSmall
  | SntpInvalidResponse
  | SntpClockOffsetOverflow
  | SntpZeroPollInterval
  | SntpErrorTimeNotSupported
  | SntpErrorChangeServer
  | SntpErrorDnsFailure
  | SntpErrorNetworkFailure
  | SntpServerNotAuthenticated
  | SntpErrorAuthFailure
  | SntpRejectedResponse
  | SntpNoResponseReceived
  | SntpErrorResponseTimeout
deriving DecidableEq

export SntpStatus (SntpSuccess SntpErrorBadParameter SntpRejectedResponseChangeServer
  SntpRejectedResponseRetryWithBackoff SntpRejectedResponseOtherCode SntpErrorBufferTooSmall
  SntpInvalidResponse SntpClockOffsetOverflow SntpZeroPollInterval SntpErrorTimeNotSupported
  SntpErrorChangeServer SntpErrorDnsFailure SntpErrorNetworkFailure SntpServerNotAuthenticated
  SntpErrorAuthFailure SntpRejectedResponse SntpNoResponseReceived SntpErrorResponseTimeout)

/-- Data parsed from an SNTP response (`SntpResponseData_t`). -/
structure SntpResponseData where
  serverTime : SntpTimestamp
  leapSecondType : SntpLeapSecondInfo
  rejectedResponseCode : Nat
  clockOffsetSec : Int
deriving DecidableEq

/-- The all-zero `SntpResponseData_t`, as produced by `memset(p, 0, sizeof *p)`
(the leap enumeration value 0 is `NoLeapSecond`). -/
def SntpResponseData.zero : SntpResponseData :=
  { serverTime := ⟨0, 0⟩, leapSecondType := .NoLeapSecond,
    rejectedResponseCode := 0, clockOffsetSec := 0 }

/-! ### Constants (core_sntp_serializer.h / core_sntp_serializer.c) -/

def SNTP_PACKET_BASE_SIZE : Nat := 48
def SNTP_FRACTION_VALUE_PER_MICROSECOND : Nat := 4295
def SNTP_TIME_AT_UNIX_EPOCH_SECS : Nat := 2208988800
def SNTP_TIME_AT_LARGEST_UNIX_TIME_SECS : Nat := 61505151
def UNIX_TIME_SECS_AT_SNTP_ERA_1_SMALLEST_TIME : Nat := 2085978496
def SNTP_KISS_OF_DEATH_CODE_NONE : Nat := 0
def SNTP_VERSION : Nat := 4
def SNTP_MODE_BITS_MASK : Nat := 0x07
def SNTP_MODE_CLIENT : Nat := 3
def SNTP_MODE_SERVER : Nat := 4
def SNTP_LEAP_INDICATOR_LSB_POSITION : Nat := 6
def SNTP_KISS_OF_DEATH_STRATUM : Nat := 0
def SNTP_VERSION_LSB_POSITION : Nat := 3
def KOD_CODE_DENY_UINT_VALUE : Nat := 0x44454e59
def KOD_CODE_RSTR_UINT_VALUE : Nat := 0x52535452
def KOD_CODE_RATE_UINT_VALUE : Nat := 0x52415445
def CLOCK_OFFSET_FIRST_ORDER_DIFF_OVERFLOW_BITS_MASK : Nat := 0xC0000000
def UINT32_MOST_SIGNIFICANT_BIT_BIT_MASK : Nat := 0x80000000

/-- `SNTP_CLOCK_OFFSET_OVERFLOW` (`0x7FFFFFFFU`) as the `int32_t` value the C
code stores into `*pClockOffset` on overflow. -/
def SNTP_CLOCK_OFFSET_OVERFLOW : Int := 0x7FFFFFFF

/-! ### uint32 helpers -/

/-- C bitwise complement `~x` on a `uint32_t` bit pattern. -/
def notU32 (x : Nat) : Nat := 2 ^ 32 - 1 - x % 2 ^ 32

/-- Two's-complement negation `~x + 1U` on `uint32_t`, as written in the
source for CBMC/MISRA compliance. -/
def negU32 (x : Nat) : Nat := (notU32 x + 1) % 2 ^ 32

/-- Reinterpretation of a `uint32_t` bit pattern as an `int32_t` value
(the C source only performs this conversion on values below `2^31`). -/
def toInt32 (x : Nat) : Int :=
  if x % 2 ^ 32 < 2 ^ 31 then (x % 2 ^ 32 : Int) else (x % 2 ^ 32 : Int) - 2 ^ 32

/-! ### Byte-buffer access -/

/-- Read byte `i` of a packet buffer.  C buffers are `uint8_t` arrays, so the
stored value is reduced mod 256 (out-of-range indices give 0, matching the
theorems' usage where the buffer is at least as long as `bufferSize`). -/
def readByte (buf : List Nat) (i : Nat) : Nat := buf.getD i 0 % 256

/-- `readWordFromNetworkByteOrderMemory`: assemble the big-endian 32-bit
integer stored at byte offset `off`, with the exact shift/mask expression of
the source. -/
def readWordFromNetworkByteOrderMemory (buf : List Nat) (off : Nat) : Nat :=
  (readByte buf off <<< 24) |||
  (0x00FF0000 &&& (readByte buf (off + 1) <<< 16)) |||
  (0x0000FF00 &&& (readByte buf (off + 2) <<< 8)) |||
  readByte buf (off + 3)

/-- `fillWordMemoryInNetworkOrder`: the four bytes written for a 32-bit
integer in network byte order (each write goes through a `uint8_t` cast,
hence the mod 256). -/
def fillWordMemoryInNetworkOrder (data : Nat) : List Nat :=
  [ (data >>> 24) % 256,
    ((data >>> 16) &&& 0x000000FF) % 256,
    ((data >>> 8) &&& 0x000000FF) % 256,
    (data &&& 0x000000FF) % 256 ]

/-! ### Clock-offset calculation (core_sntp_serializer.c, calculateClockOffset) -/

/-- `isEligibleForClockOffsetCalculation`: the first-order difference (or its
two's complement) must have the two top bits clear. -/
def isEligibleForClockOffsetCalculation (firstOrderDiff : Nat) : Bool :=
  ((firstOrderDiff &&& CLOCK_OFFSET_FIRST_ORDER_DIFF_OVERFLOW_BITS_MASK) == 0) ||
  ((negU32 firstOrderDiff &&& CLOCK_OFFSET_FIRST_ORDER_DIFF_OVERFLOW_BITS_MASK) == 0)

/-- `calculateClockOffset`: era-aware clock offset from the four on-wire
timestamps, returning the status and the value stored in `*pClockOffset`. -/
def calculateClockOffset (pClientTxTime pServerRxTime pServerTxTime pClientRxTime :
    SntpTimestamp) : SntpStatus × Int :=
  let sendPolarity : Bool := decide (pServerRxTime.seconds ≥ pClientTxTime.seconds)
  let recvPolarity : Bool := decide (pServerTxTime.seconds ≥ pClientRxTime.seconds)
  let firstOrderDiffSend :=
    if sendPolarity then pServerRxTime.seconds - pClientTxTime.seconds
    else pClientTxTime.seconds - pServerRxTime.seconds
  let firstOrderDiffRecv :=
    if recvPolarity then pServerTxTime.seconds - pClientRxTime.seconds
    else pClientRxTime.seconds - pServerTxTime.seconds
  if isEligibleForClockOffsetCalculation firstOrderDiffSend &&
     isEligibleForClockOffsetCalculation firstOrderDiffRecv then
    let msbSend :=
      (firstOrderDiffSend &&& UINT32_MOST_SIGNIFICANT_BIT_BIT_MASK) ==
        UINT32_MOST_SIGNIFICANT_BIT_BIT_MASK
    let firstOrderDiffSend2 := if msbSend then negU32 firstOrderDiffSend else firstOrderDiffSend
    let sendPolarity2 := if msbSend then !sendPolarity else sendPolarity
    let msbRecv :=
      (firstOrderDiffRecv &&& UINT32_MOST_SIGNIFICANT_BIT_BIT_MASK) ==
        UINT32_MOST_SIGNIFICANT_BIT_BIT_MASK
    let firstOrderDiffRecv2 := if msbRecv then negU32 firstOrderDiffRecv else firstOrderDiffRecv
    let recvPolarity2 := if msbRecv then !recvPolarity else recvPolarity
    let signedFirstOrderDiffSend :=
      if sendPolarity2 then toInt32 firstOrderDiffSend2 else 0 - toInt32 firstOrderDiffSend2
    let signedFirstOrderDiffRecv :=
      if recvPolarity2 then toInt32 firstOrderDiffRecv2 else 0 - toInt32 firstOrderDiffRecv2
    (SntpSuccess, Int.tdiv (signedFirstOrderDiffSend + signedFirstOrderDiffRecv) 2)
  else
    (SntpClockOffsetOverflow, SNTP_CLOCK_OFFSET_OVERFLOW)

/-! ### Response parsing (core_sntp_serializer.c) -/

/-- `leapIndicatorTypeMap` of the source: two-bit leap indicator value to the
enumeration (the index is always below 4 at the call site; the final arm is
index 3). -/
def leapIndicatorTypeMap (i : Nat) : SntpLeapSecondInfo :=
  match i with
  | 0 => .NoLeapSecond
  | 1 => .LastMinuteHas61Seconds
  | 2 => .LastMinuteHas59Seconds
  | _ => .AlarmServerNotSynchronized

/-- `parseValidSntpResponse`: classify a mode/originate-validated response as
Kiss-o'-Death or accepted, and build the output data (the C code first
zeroes the output structure). -/
def parseValidSntpResponse (buf : List Nat)
    (pRequestTxTime pResponseRxTime : SntpTimestamp) : SntpStatus × SntpResponseData :=
  if readByte buf 1 == SNTP_KISS_OF_DEATH_STRATUM then
    let rejectedResponseCode := readWordFromNetworkByteOrderMemory buf 12
    let status :=
      if rejectedResponseCode = KOD_CODE_DENY_UINT_VALUE ∨
         rejectedResponseCode = KOD_CODE_RSTR_UINT_VALUE then
        SntpRejectedResponseChangeServer
      else if rejectedResponseCode = KOD_CODE_RATE_UINT_VALUE then
        SntpRejectedResponseRetryWithBackoff
      else
        SntpRejectedResponseOtherCode
    (status, { SntpResponseData.zero with rejectedResponseCode := rejectedResponseCode })
  else
    let serverTime : SntpTimestamp :=
      ⟨readWordFromNetworkByteOrderMemory buf 40, readWordFromNetworkByteOrderMemory buf 44⟩
    let leapSecondType :=
      leapIndicatorTypeMap (readByte buf 0 >>> SNTP_LEAP_INDICATOR_LSB_POSITION)
    let serverRxTime : SntpTimestamp :=
      ⟨readWordFromNetworkByteOrderMemory buf 32, readWordFromNetworkByteOrderMemory buf 36⟩
    let r := calculateClockOffset pRequestTxTime serverRxTime serverTime pResponseRxTime
    (r.1, { serverTime := serverTime, leapSecondType := leapSecondType,
            rejectedResponseCode := SNTP_KISS_OF_DEATH_CODE_NONE, clockOffsetSec := r.2 })

/-- `Sntp_DeserializeResponse`.  Nullable pointer arguments are `Option`s;
`pParsedResponse` carries the caller's structure contents, returned unchanged
on the paths that do not write through the pointer. -/
def Sntp_DeserializeResponse (pRequestTime pResponseRxTime : Option SntpTimestamp)
    (pResponseBuffer : Option (List Nat)) (bufferSize : Nat)
    (pParsedResponse : Option SntpResponseData) : SntpStatus × Option SntpResponseData :=
  match pRequestTime, pResponseRxTime, pResponseBuffer, pParsedResponse with
  | some requestTime, some responseRxTime, some buf, some parsedResponse =>
    if bufferSize < SNTP_PACKET_BASE_SIZE then
      (SntpErrorBufferTooSmall, some parsedResponse)
    else
      let statusMode :=
        if (readByte buf 0 &&& SNTP_MODE_BITS_MASK) ≠ SNTP_MODE_SERVER then
          SntpInvalidResponse
        else SntpSuccess
      let statusOrig :=
        if statusMode = SntpSuccess then
          if requestTime.seconds ≠ readWordFromNetworkByteOrderMemory buf 24 ∨
             requestTime.fractions ≠ readWordFromNetworkByteOrderMemory buf 28 then
            SntpInvalidResponse
          else SntpSuccess
        else statusMode
      if statusOrig = SntpSuccess then
        let r := parseValidSntpResponse buf requestTime responseRxTime
        (r.1, some r.2)
      else
        (statusOrig, some parsedResponse)
  | _, _, _, _ => (SntpErrorBadParameter, pParsedResponse)

/-! ### Request serialization (core_sntp_serializer.c, Sntp_SerializeRequest) -/

/-- The 48-byte request packet built by `Sntp_SerializeRequest` after
`memset(pBuffer, 0, 48)`: byte 0 holds leap/version/mode, bytes 40..47 hold
the transmit timestamp in network byte order, every other byte stays 0. -/
def serializedRequestPacket (requestTime : SntpTimestamp) : List Nat :=
  [ 0 ||| (SNTP_VERSION <<< SNTP_VERSION_LSB_POSITION) ||| SNTP_MODE_CLIENT,
    0, 0, 0,
    0, 0, 0, 0,
    0, 0, 0, 0,
    0, 0, 0, 0,
    0, 0, 0, 0, 0, 0, 0, 0,
    0, 0, 0, 0, 0, 0, 0, 0,
    0, 0, 0, 0, 0, 0, 0, 0 ] ++
  fillWordMemoryInNetworkOrder requestTime.seconds ++
  fillWordMemoryInNetworkOrder requestTime.fractions

/-- `Sntp_SerializeRequest`.  Returns the status, the (mutated) request time
written back through `pRequestTime`, and the new buffer contents (only the
first 48 bytes are touched). -/
def Sntp_SerializeRequest (pRequestTime : Option SntpTimestamp) (randomNumber : Nat)
    (pBuffer : Option (List Nat)) (bufferSize : Nat) :
    SntpStatus × Option SntpTimestamp × Option (List Nat) :=
  match pRequestTime, pBuffer with
  | some requestTime, some buf =>
    if bufferSize < SNTP_PACKET_BASE_SIZE then
      (SntpErrorBufferTooSmall, some requestTime, some buf)
    else
      let newTime : SntpTimestamp :=
        { requestTime with fractions := requestTime.fractions ||| (randomNumber >>> 16) }
      (SntpSuccess, some newTime, some (serializedRequestPacket newTime ++ buf.drop 48))
  | _, _ => (SntpErrorBadParameter, pRequestTime, pBuffer)

/-! ### Poll interval (core_sntp_serializer.c, Sntp_CalculatePollInterval) -/

/-- The `while( exactIntervalForAccuracy != 0U )` loop of
`Sntp_CalculatePollInterval`: repeatedly halve the value, counting
iterations on top of the running count `l`. -/
def pollIntervalBitCountLoop (x l : Nat) : Nat :=
  if x = 0 then l else pollIntervalBitCountLoop (x / 2) (l + 1)
termination_by x
decreasing_by exact Nat.div_lt_self (by omega) (by omega)

/-- `Sntp_CalculatePollInterval`.  The output pointer is modelled by a flag
for its nullability and an `Option` for the value written through it. -/
def Sntp_CalculatePollInterval (clockFreqTolerance desiredAccuracy : Nat)
    (hasPollIntervalOut : Bool) : SntpStatus × Option Nat :=
  if clockFreqTolerance = 0 ∨ desiredAccuracy = 0 ∨ hasPollIntervalOut = false then
    (SntpErrorBadParameter, none)
  else
    let exactIntervalForAccuracy := desiredAccuracy * 1000 / clockFreqTolerance
    if exactIntervalForAccuracy = 0 then
      (SntpZeroPollInterval, none)
    else
      let log2PollInterval := pollIntervalBitCountLoop exactIntervalForAccuracy 0 - 1
      (SntpSuccess, some (1 <<< log2PollInterval))

/-! ### UNIX time conversion (core_sntp_serializer.c, Sntp_ConvertToUnixTime) -/

/-- `Sntp_ConvertToUnixTime`.  Output pointers are modelled like in
`Sntp_CalculatePollInterval`. -/
def Sntp_ConvertToUnixTime (pSntpTime : Option SntpTimestamp)
    (hasUnixTimeSecs hasUnixTimeMicrosecs : Bool) :
    SntpStatus × Option Nat × Option Nat :=
  match pSntpTime with
  | some sntpTime =>
    if hasUnixTimeSecs = false ∨ hasUnixTimeMicrosecs = false then
      (SntpErrorBadParameter, none, none)
    else if sntpTime.seconds > SNTP_TIME_AT_LARGEST_UNIX_TIME_SECS ∧
            sntpTime.seconds < SNTP_TIME_AT_UNIX_EPOCH_SECS then
      (SntpErrorTimeNotSupported, none, none)
    else
      let unixSecs :=
        if sntpTime.seconds ≤ SNTP_TIME_AT_LARGEST_UNIX_TIME_SECS then
          UNIX_TIME_SECS_AT_SNTP_ERA_1_SMALLEST_TIME + sntpTime.seconds
        else
          sntpTime.seconds - SNTP_TIME_AT_UNIX_EPOCH_SECS
      (SntpSuccess, some unixSecs,
       some (sntpTime.fractions / SNTP_FRACTION_VALUE_PER_MICROSECOND))
  | none => (SntpErrorBadParameter, none, none)

/-! ### Specification-side definition for the refinement claims

The clock-offset claims compare the code against the spec's own description
of the era-adjusted difference (§4.1): `d(a, b)` is the candidate of smallest
absolute value among `a − b`, `a + 2^32 − b` and `a − (2^32 + b)`. -/

/-- Following the specification's words: the era-adjusted signed difference
`d(a, b)`, chosen as the smallest-magnitude candidate among `a − b`,
`a + 2^32 − b` and `a − (2^32 + b)`. -/
def specEraAdjustedDiff (a b : Nat) : Int :=
  if ((a : Int) - b).natAbs ≤ ((a : Int) + 2 ^ 32 - b).natAbs ∧
     ((a : Int) - b).natAbs ≤ ((a : Int) - (2 ^ 32 + b)).natAbs then
    (a : Int) - b
  else if ((a : Int) + 2 ^ 32 - b).natAbs ≤ ((a : Int) - (2 ^ 32 + b)).natAbs then
    (a : Int) + 2 ^ 32 - b
  else
    (a : Int) - (2 ^ 32 + b)

/-! ### Client engine (core_sntp_client.c)

The engine's loops interact with the caller-supplied hooks.  The hooks are
modelled by an oracle environment: each get-time / UDP call is answered by
the oracle at the call's (per-hook) sequence index, recorded in a
`HookTrace`.  Loops take explicit fuel and return `none` when the fuel runs
out before the C loop would have exited. -/

/-- `calculateElapsedTimeMs`: millisecond difference of two timestamps with
`uint32_t` wrap-around arithmetic (the C subtraction `a - b` on `uint32_t`
is written `(a + 2^32 - b) % 2^32`). -/
def calculateElapsedTimeMs (pCurrentTime pOlderTime : SntpTimestamp) : Nat :=
  let timeDiffMs :=
    (pCurrentTime.seconds % 2 ^ 32 + 2 ^ 32 - pOlderTime.seconds % 2 ^ 32) % 2 ^ 32 * 1000 % 2 ^ 32
  if pCurrentTime.fractions > pOlderTime.fractions then
    (timeDiffMs + (pCurrentTime.fractions - pOlderTime.fractions) /
        (SNTP_FRACTION_VALUE_PER_MICROSECOND * 1000)) % 2 ^ 32
  else
    (timeDiffMs + 2 ^ 32 - (pOlderTime.fractions - pCurrentTime.fractions) /
        (SNTP_FRACTION_VALUE_PER_MICROSECOND * 1000) % 2 ^ 32) % 2 ^ 32

/-- Oracle environment answering the hook calls of the client engine.
`uninitCurrentTime` is the indeterminate contents of the uninitialized local
`currentTime` in `receiveSntpResponse`; `uninitParsedResponse` the
indeterminate initial contents of the stack-allocated `SntpResponseData_t`
in `processServerResponse`.  The compile-time configuration constants
`SNTP_SEND_RETRY_TIMEOUT_MS` / `SNTP_RECV_POLLING_TIMEOUT_MS` live in the
configuration header that is not part of the sources, so they are fields
here. -/
structure ClientEnv where
  getTimeAt : Nat → SntpTimestamp
  recvCodeAt : Nat → Int
  recvByteAt : Nat → Nat
  sendCodeAt : Nat → Int
  dnsSuccess : Bool
  dnsAddr : Nat
  authGenStatus : SntpStatus
  authGenDataSize : Nat
  authValStatus : SntpStatus
  uninitCurrentTime : SntpTimestamp
  uninitParsedResponse : SntpResponseData
  sendRetryTimeoutMs : Nat
  recvPollingTimeoutMs : Nat

/-- Record of hook activity: per-hook call counters and the log of `setTime`
invocations (the engine's only clock side effect). -/
structure HookTrace where
  timeIdx : Nat
  recvIdx : Nat
  sendIdx : Nat
  dnsCalls : Nat
  authCalls : Nat
  setTimeLog : List (SntpTimestamp × Int × SntpLeapSecondInfo)
deriving DecidableEq

/-- One call of the get-time hook. -/
def hookGetTime (env : ClientEnv) (h : HookTrace) : SntpTimestamp × HookTrace :=
  (env.getTimeAt h.timeIdx, { h with timeIdx := h.timeIdx + 1 })

/-- One call of the UDP receive hook.  Per this source every receive call in
the client passes `pBuffer` (offset 0) with a requested size of one byte, so
a positive return deposits one byte at offset 0. -/
def hookRecvFrom (env : ClientEnv) (h : HookTrace) (buf : List Nat) :
    Int × List Nat × HookTrace :=
  let code := env.recvCodeAt h.recvIdx
  let buf2 := if code > 0 then buf.set 0 (env.recvByteAt h.recvIdx % 256) else buf
  (code, buf2, { h with recvIdx := h.recvIdx + 1 })

/-- One call of the UDP send hook. -/
def hookSendTo (env : ClientEnv) (h : HookTrace) : Int × HookTrace :=
  (env.sendCodeAt h.sendIdx, { h with sendIdx := h.sendIdx + 1 })

/-- One call of the DNS-resolution hook (the resolved address is written
through the out pointer; the flag is the hook's return value). -/
def hookResolveDns (env : ClientEnv) (h : HookTrace) : Bool × HookTrace :=
  (env.dnsSuccess, { h with dnsCalls := h.dnsCalls + 1 })

/-- The SNTP client context (`SntpContext_t`; its declaring header is not in
the sources, the fields are modelled from the spec's Context description and
the uses in `core_sntp_client.c`).  The two flags stand for the non-nullness
of the optional authentication interface's function pointers. -/
structure SntpContext where
  numOfServers : Nat
  currentServerIndex : Nat
  responseTimeoutMs : Nat
  lastRequestTime : SntpTimestamp
  pNetworkBuffer : List Nat
  bufferSize : Nat
  sntpPacketSize : Nat
  hasGenerateClientAuth : Bool
  hasValidateServerAuth : Bool
  currentServerAddr : Nat
deriving DecidableEq

/-- The `while( bytesRemaining > 0 && status == SntpSuccess )` drain loop of
`receiveSntpResponse`.  Note (claim C7): in the zero-read branch the C
source declares `SntpTimestamp_t currentTime;` and computes
`calculateElapsedTimeMs( &currentTime, &startTime )` WITHOUT calling the
get-time hook, i.e. from an uninitialized stack object, modelled by
`env.uninitCurrentTime`. -/
def receiveSntpResponseLoop (env : ClientEnv) :
    Nat → Nat → SntpStatus → SntpTimestamp → List Nat → HookTrace →
    Option (SntpStatus × List Nat × HookTrace)
  | 0, _, _, _, _, _ => none
  | fuel + 1, bytesRemaining, status, startTime, buf, h =>
    if bytesRemaining > 0 ∧ status = SntpSuccess then
      let r := hookRecvFrom env h buf
      if r.1 > 0 then
        let g := hookGetTime env r.2.2
        receiveSntpResponseLoop env fuel (bytesRemaining - r.1.toNat) status g.1 r.2.1 g.2
      else if r.1 = 0 then
        let timeSinceLastRecv := calculateElapsedTimeMs env.uninitCurrentTime startTime
        if timeSinceLastRecv ≥ env.recvPollingTimeoutMs then
          receiveSntpResponseLoop env fuel bytesRemaining SntpErrorNetworkFailure startTime r.2.1 r.2.2
        else
          receiveSntpResponseLoop env fuel bytesRemaining status startTime r.2.1 r.2.2
      else
        receiveSntpResponseLoop env fuel bytesRemaining SntpErrorNetworkFailure startTime r.2.1 r.2.2
    else
      some (status, buf, h)

/-- `receiveSntpResponse`: one-byte peek, then the drain loop.  The C
function's trailing `if( bytesRead < 0 )` assignment is subsumed: a negative
read inside the loop already set `SntpErrorNetworkFailure`, and after a
non-entered loop it is the peek's own negative branch. -/
def receiveSntpResponse (env : ClientEnv) (fuel responseSize : Nat) (buf : List Nat)
    (h : HookTrace) : Option (SntpStatus × List Nat × HookTrace) :=
  let r := hookRecvFrom env h buf
  if r.1 > 0 then
    let g := hookGetTime env r.2.2
    receiveSntpResponseLoop env fuel (responseSize - 1) SntpSuccess g.1 r.2.1 g.2
  else if r.1 = 0 then
    some (SntpNoResponseReceived, r.2.1, r.2.2)
  else
    some (SntpErrorNetworkFailure, r.2.1, r.2.2)

/-- `processServerResponse`: optional server-authentication check, then
deserialization; a Kiss-o'-Death rejection advances the server cursor and
collapses to `SntpRejectedResponse`; an accepted response (also with clock
offset overflow) invokes the set-time hook and returns `SntpSuccess`. -/
def processServerResponse (env : ClientEnv) (ctx : SntpContext)
    (pResponseRxTime : SntpTimestamp) (h : HookTrace) :
    SntpStatus × SntpContext × HookTrace :=
  let status := if ctx.hasValidateServerAuth then env.authValStatus else SntpSuccess
  let h1 := if ctx.hasValidateServerAuth then { h with authCalls := h.authCalls + 1 } else h
  if status = SntpSuccess then
    let r := Sntp_DeserializeResponse (some ctx.lastRequestTime) (some pResponseRxTime)
      (some ctx.pNetworkBuffer) ctx.sntpPacketSize (some env.uninitParsedResponse)
    let parsed := r.2.getD env.uninitParsedResponse
    if r.1 = SntpRejectedResponseChangeServer ∨ r.1 = SntpRejectedResponseRetryWithBackoff ∨
       r.1 = SntpRejectedResponseOtherCode then
      (SntpRejectedResponse, { ctx with currentServerIndex := ctx.currentServerIndex + 1 }, h1)
    else if r.1 = SntpInvalidResponse then
      (SntpInvalidResponse, ctx, h1)
    else
      (SntpSuccess, ctx,
       { h1 with setTimeLog :=
           h1.setTimeLog ++ [(parsed.serverTime, parsed.clockOffsetSec, parsed.leapSecondType)] })
  else
    (status, ctx, h1)

/-- The `do { ... } while` polling loop of `Sntp_ReceiveTimeResponse`. -/
def receiveTimeResponseLoop (env : ClientEnv) (blockTimeMs : Nat) :
    Nat → SntpContext → SntpTimestamp → HookTrace →
    Option (SntpStatus × SntpContext × HookTrace)
  | 0, _, _, _ => none
  | fuel + 1, ctx, startTime, h =>
    match receiveSntpResponse env (fuel + 1) ctx.sntpPacketSize ctx.pNetworkBuffer h with
    | none => none
    | some (status0, buf2, h1) =>
      let ctx1 := { ctx with pNetworkBuffer := buf2 }
      let g := hookGetTime env h1
      let r :=
        if status0 = SntpSuccess then
          processServerResponse env ctx1 g.1 g.2
        else if calculateElapsedTimeMs g.1 ctx1.lastRequestTime ≥ ctx1.responseTimeoutMs then
          (SntpErrorResponseTimeout, ctx1, g.2)
        else
          (status0, ctx1, g.2)
      if r.1 = SntpNoResponseReceived ∧ calculateElapsedTimeMs g.1 startTime < blockTimeMs then
        receiveTimeResponseLoop env blockTimeMs fuel r.2.1 startTime r.2.2
      else
        some r

/-- `Sntp_ReceiveTimeResponse` (the null-context check is not representable
for a by-value context and is omitted; every other step follows the source). -/
def Sntp_ReceiveTimeResponse (env : ClientEnv) (fuel : Nat) (ctx : SntpContext)
    (blockTimeMs : Nat) (h : HookTrace) : Option (SntpStatus × SntpContext × HookTrace) :=
  if ctx.currentServerIndex ≥ ctx.numOfServers then
    some (SntpErrorChangeServer, ctx, h)
  else
    let g := hookGetTime env h
    receiveTimeResponseLoop env blockTimeMs fuel ctx g.1 g.2

/-- The send retry loop of `sendSntpPacket`. -/
def sendSntpPacketLoop (env : ClientEnv) :
    Nat → Nat → Bool → SntpTimestamp → HookTrace → Option (Bool × HookTrace)
  | 0, _, _, _, _ => none
  | fuel + 1, bytesRemaining, sendError, lastSendTime, h =>
    if bytesRemaining > 0 ∧ sendError = false then
      let s := hookSendTo env h
      if s.1 < 0 then
        sendSntpPacketLoop env fuel bytesRemaining true lastSendTime s.2
      else if s.1 > 0 then
        let g := hookGetTime env s.2
        sendSntpPacketLoop env fuel (bytesRemaining - s.1.toNat) sendError g.1 g.2
      else
        let g := hookGetTime env s.2
        if calculateElapsedTimeMs g.1 lastSendTime ≥ env.sendRetryTimeoutMs then
          sendSntpPacketLoop env fuel bytesRemaining true lastSendTime g.2
        else
          sendSntpPacketLoop env fuel bytesRemaining sendError lastSendTime g.2
    else
      some (sendError, h)

/-- `sendSntpPacket`: record the base time, loop until all bytes are sent or
a send error / retry timeout occurs. -/
def sendSntpPacket (env : ClientEnv) (fuel packetSize : Nat) (h : HookTrace) :
    Option (SntpStatus × HookTrace) :=
  let g := hookGetTime env h
  match sendSntpPacketLoop env fuel packetSize false g.1 g.2 with
  | none => none
  | some (sendError, h2) =>
    some (if sendError = false then SntpSuccess else SntpErrorNetworkFailure, h2)

/-- `addClientAuthentication`: call the auth-generation hook and account for
the appended data size.  The appended bytes live past offset 48 and never
reach the response parser (which reads only the first 48 bytes), so their
values are not tracked. -/
def addClientAuthentication (env : ClientEnv) (ctx : SntpContext) (h : HookTrace) :
    SntpStatus × SntpContext × HookTrace :=
  let h1 := { h with authCalls := h.authCalls + 1 }
  if env.authGenStatus ≠ SntpSuccess then
    (env.authGenStatus, ctx, h1)
  else if env.authGenDataSize > ctx.bufferSize - SNTP_PACKET_BASE_SIZE then
    (SntpErrorAuthFailure, ctx, h1)
  else
    (SntpSuccess, { ctx with sntpPacketSize := SNTP_PACKET_BASE_SIZE + env.authGenDataSize }, h1)

/-- `Sntp_SendTimeRequest` (null-context check omitted as above). -/
def Sntp_SendTimeRequest (env : ClientEnv) (fuel : Nat) (ctx : SntpContext)
    (randomNumber : Nat) (h : HookTrace) : Option (SntpStatus × SntpContext × HookTrace) :=
  if ctx.currentServerIndex ≥ ctx.numOfServers then
    some (SntpErrorChangeServer, ctx, h)
  else
    let d := hookResolveDns env h
    let ctx1 := { ctx with currentServerAddr := env.dnsAddr }
    if d.1 = false then
      some (SntpErrorDnsFailure, ctx1, d.2)
    else
      let g := hookGetTime env d.2
      let s := Sntp_SerializeRequest (some g.1) randomNumber (some ctx1.pNetworkBuffer)
        ctx1.bufferSize
      let ctx2 := { ctx1 with lastRequestTime := s.2.1.getD g.1,
                              pNetworkBuffer := s.2.2.getD ctx1.pNetworkBuffer }
      if s.1 ≠ SntpSuccess then
        some (s.1, ctx2, g.2)
      else
        let a := if ctx2.hasGenerateClientAuth then addClientAuthentication env ctx2 g.2
                 else (SntpSuccess, ctx2, g.2)
        if a.1 ≠ SntpSuccess then
          some (a.1, a.2.1, a.2.2)
        else
          match sendSntpPacket env fuel a.2.1.sntpPacketSize a.2.2 with
          | none => none
          | some (st, h4) => some (st, a.2.1, h4)

/-! ### Concrete oracle fixtures used to exercise the client engine -/

/-- The all-zero hook trace at the start of an engine call. -/
def initialHookTrace : HookTrace := ⟨0, 0, 0, 0, 0, []⟩

/-- An inert oracle: the transport never has data, time stands still,
DNS and authentication succeed trivially. -/
def idleEnv : ClientEnv :=
  { getTimeAt := fun _ => ⟨0, 0⟩,
    recvCodeAt := fun _ => 0,
    recvByteAt := fun _ => 0,
    sendCodeAt := fun _ => 0,
    dnsSuccess := true,
    dnsAddr := 0,
    authGenStatus := SntpSuccess,
    authGenDataSize := 0,
    authValStatus := SntpSuccess,
    uninitCurrentTime := ⟨0, 0⟩,
    uninitParsedResponse := SntpResponseData.zero,
    sendRetryTimeoutMs := 1000,
    recvPollingTimeoutMs := 1000 }

/-- An oracle on which the receive drain loop starves: the peek returns one
byte, every later read returns zero, and the get-time hook advances by
10000 ms on every call — far beyond the 1000 ms polling timeout — while the
indeterminate value of the uninitialized `currentTime` stack object happens
to equal the drain loop's base time. -/
def zeroReadEnv : ClientEnv :=
  { getTimeAt := fun k => ⟨10 * (k + 1), 0⟩,
    recvCodeAt := fun k => if k = 0 then 1 else 0,
    recvByteAt := fun _ => 0,
    sendCodeAt := fun _ => 0,
    dnsSuccess := true,
    dnsAddr := 0,
    authGenStatus := SntpSuccess,
    authGenDataSize := 0,
    authValStatus := SntpSuccess,
    uninitCurrentTime := ⟨10, 0⟩,
    uninitParsedResponse := SntpResponseData.zero,
    sendRetryTimeoutMs := 1000,
    recvPollingTimeoutMs := 1000 }

/-! ## Theorems

### Bit-level facts about the uint32 operations -/

theorem readByte_lt (buf : List Nat) (i : Nat) : readByte buf i < 256 :=
  Nat.mod_lt _ (by omega)

theorem shiftLeft_and_shiftLeft (a b k : Nat) :
    (a <<< k) &&& (b <<< k) = (a &&& b) <<< k := by
  apply Nat.eq_of_testBit_eq
  intro i
  simp only [Nat.testBit_and, Nat.testBit_shiftLeft]
  by_cases h : k ≤ i <;> simp [h, ge_iff_le]

theorem mask_and_shiftLeft_eq {m : Nat} (k b : Nat) (hb : b < 2 ^ m) :
    ((2 ^ m - 1) <<< k) &&& (b <<< k) = b <<< k := by
  rw [shiftLeft_and_shiftLeft, Nat.and_comm, Nat.and_pow_two_sub_one_eq_mod,
    Nat.mod_eq_of_lt hb]

/-- Big-endian word assembly, arithmetically. -/
theorem readWord_eq (buf : List Nat) (off : Nat) :
    readWordFromNetworkByteOrderMemory buf off =
      readByte buf off * 2 ^ 24 + readByte buf (off + 1) * 2 ^ 16 +
      readByte buf (off + 2) * 2 ^ 8 + readByte buf (off + 3) := by
  have h0 := readByte_lt buf off
  have h1 := readByte_lt buf (off + 1)
  have h2 := readByte_lt buf (off + 2)
  have h3 := readByte_lt buf (off + 3)
  unfold readWordFromNetworkByteOrderMemory
  rw [show (0x00FF0000 : Nat) = (2 ^ 8 - 1) <<< 16 from by norm_num [Nat.shiftLeft_eq],
    show (0x0000FF00 : Nat) = (2 ^ 8 - 1) <<< 8 from by norm_num [Nat.shiftLeft_eq],
    mask_and_shiftLeft_eq 16 _ (show readByte buf (off + 1) < 2 ^ 8 from h1),
    mask_and_shiftLeft_eq 8 _ (show readByte buf (off + 2) < 2 ^ 8 from h2),
    Nat.shiftLeft_eq, Nat.shiftLeft_eq, Nat.shiftLeft_eq, Nat.or_assoc, Nat.or_assoc,
    Nat.mul_comm (readByte buf (off + 2)) (2 ^ 8),
    ← Nat.mul_add_lt_is_or (show readByte buf (off + 3) < 2 ^ 8 from h3),
    Nat.mul_comm (readByte buf (off + 1)) (2 ^ 16),
    ← Nat.mul_add_lt_is_or (show 2 ^ 8 * readByte buf (off + 2) + readByte buf (off + 3) < 2 ^ 16
      by omega),
    Nat.mul_comm (readByte buf off) (2 ^ 24),
    ← Nat.mul_add_lt_is_or (show 2 ^ 16 * readByte buf (off + 1) +
      (2 ^ 8 * readByte buf (off + 2) + readByte buf (off + 3)) < 2 ^ 24 by omega)]
  ring

theorem readWord_lt (buf : List Nat) (off : Nat) :
    readWordFromNetworkByteOrderMemory buf off < 2 ^ 32 := by
  have h0 := readByte_lt buf off
  have h1 := readByte_lt buf (off + 1)
  have h2 := readByte_lt buf (off + 2)
  have h3 := readByte_lt buf (off + 3)
  rw [readWord_eq]
  omega

/-- The four bytes produced by `fillWordMemoryInNetworkOrder`, arithmetically. -/
theorem fillWord_eq (data : Nat) :
    fillWordMemoryInNetworkOrder data =
      [data / 2 ^ 24 % 256, data / 2 ^ 16 % 256, data / 2 ^ 8 % 256, data % 256] := by
  unfold fillWordMemoryInNetworkOrder
  rw [show (0x000000FF : Nat) = 2 ^ 8 - 1 from by norm_num]
  simp only [Nat.shiftRight_eq_div_pow, Nat.and_pow_two_sub_one_eq_mod]
  simp only [List.cons.injEq, and_true]
  exact ⟨by trivial, by omega, by omega, by omega⟩

theorem and_mask_C0_eq_zero_iff {d : Nat} (hd : d < 2 ^ 32) :
    d &&& 0xC0000000 = 0 ↔ d < 2 ^ 30 := by
  constructor
  · intro h
    have e30 := congrArg (fun x => Nat.testBit x 30) h
    have e31 := congrArg (fun x => Nat.testBit x 31) h
    simp only [Nat.testBit_and, Nat.zero_testBit,
      show Nat.testBit 0xC0000000 30 = true from by decide,
      show Nat.testBit 0xC0000000 31 = true from by decide, Bool.and_true] at e30 e31
    rw [Nat.testBit_to_div_mod] at e30 e31
    simp only [decide_eq_false_iff_not] at e30 e31
    omega
  · intro h
    apply Nat.eq_of_testBit_eq
    intro i
    simp only [Nat.testBit_and, Nat.zero_testBit]
    by_cases h30 : 30 ≤ i
    · have hdi : d.testBit i = false :=
        Nat.testBit_lt_two_pow (lt_of_lt_of_le h (Nat.pow_le_pow_right (by omega) h30))
      simp [hdi]
    · have hmi : Nat.testBit 0xC0000000 i = false := by
        rw [show (0xC0000000 : Nat) = 2 ^ 30 * 3 from by norm_num, Nat.testBit_mul_pow_two]
        simp [h30]
      simp [hmi]

theorem and_msb_eq_iff {d : Nat} (hd : d < 2 ^ 32) :
    d &&& 0x80000000 = 0x80000000 ↔ 2 ^ 31 ≤ d := by
  constructor
  · intro h
    have e31 := congrArg (fun x => Nat.testBit x 31) h
    simp only [Nat.testBit_and,
      show Nat.testBit 0x80000000 31 = true from by decide, Bool.and_true] at e31
    rw [Nat.testBit_to_div_mod] at e31
    simp only [decide_eq_true_eq] at e31
    omega
  · intro h
    apply Nat.eq_of_testBit_eq
    intro i
    simp only [Nat.testBit_and]
    by_cases h31 : i = 31
    · subst h31
      have hdi : d.testBit 31 = true := by
        rw [Nat.testBit_to_div_mod]
        simp only [decide_eq_true_eq]
        omega
      simp [hdi, show Nat.testBit 0x80000000 31 = true from by decide]
    · have hmi : Nat.testBit 0x80000000 i = false := by
        rw [show (0x80000000 : Nat) = 2 ^ 31 from by norm_num, Nat.testBit_two_pow]
        simp [Ne.symm h31]
      simp [hmi]

theorem negU32_eq {d : Nat} (hd : d < 2 ^ 32) : negU32 d = (2 ^ 32 - d) % 2 ^ 32 := by
  unfold negU32 notU32
  omega

theorem toInt32_of_lt {x : Nat} (hx : x < 2 ^ 31) : toInt32 x = (x : Int) := by
  unfold toInt32
  rw [if_pos (show x % 2 ^ 32 < 2 ^ 31 by omega)]
  omega

theorem isEligible_iff {d : Nat} (hd : d < 2 ^ 32) :
    isEligibleForClockOffsetCalculation d = true ↔
      (d < 2 ^ 30 ∨ 2 ^ 32 - d < 2 ^ 30) := by
  unfold isEligibleForClockOffsetCalculation CLOCK_OFFSET_FIRST_ORDER_DIFF_OVERFLOW_BITS_MASK
  rw [negU32_eq hd]
  simp only [Bool.or_eq_true, beq_iff_eq]
  rw [and_mask_C0_eq_zero_iff hd, and_mask_C0_eq_zero_iff (Nat.mod_lt _ (by omega))]
  omega

/-! ### Correctness of the clock-offset calculation against the spec -/

/-- The signed first-order difference computed by `calculateClockOffset` for
one network path equals the spec's era-adjusted difference, whenever the
latter is inside the 34-year window. -/
theorem signedComponent_spec (a b : Nat) (ha : a < 2 ^ 32) (hb : b < 2 ^ 32)
    (hA : (specEraAdjustedDiff a b).natAbs < 2 ^ 30) :
    (if (if ((if decide (a ≥ b) then a - b else b - a) &&& 0x80000000) == 0x80000000
          then !(decide (a ≥ b)) else decide (a ≥ b))
      then toInt32 (if ((if decide (a ≥ b) then a - b else b - a) &&& 0x80000000) == 0x80000000
          then negU32 (if decide (a ≥ b) then a - b else b - a)
          else (if decide (a ≥ b) then a - b else b - a))
      else 0 - toInt32 (if ((if decide (a ≥ b) then a - b else b - a) &&& 0x80000000) == 0x80000000
          then negU32 (if decide (a ≥ b) then a - b else b - a)
          else (if decide (a ≥ b) then a - b else b - a))) = specEraAdjustedDiff a b := by
  by_cases hab : b ≤ a
  · simp only [ge_iff_le, hab, decide_True, if_true, eq_self_iff_true, Bool.not_true]
    by_cases hm : 2 ^ 31 ≤ a - b
    · have hmeq : (a - b) &&& 0x80000000 = 0x80000000 := (and_msb_eq_iff (by omega)).mpr hm
      simp only [hmeq, beq_self_eq_true, if_true, eq_self_iff_true, Bool.not_true,
        Bool.false_eq_true, if_false]
      have hbound : 2 ^ 32 - (a - b) < 2 ^ 30 := by
        unfold specEraAdjustedDiff at hA
        split_ifs at hA <;> omega
      rw [negU32_eq (by omega), toInt32_of_lt (by omega)]
      unfold specEraAdjustedDiff
      split_ifs <;> omega
    · have hmne : (a - b) &&& 0x80000000 ≠ 0x80000000 := fun hh =>
        hm ((and_msb_eq_iff (by omega)).mp hh)
      have hmeq : ((a - b) &&& 0x80000000 == 0x80000000) = false := beq_eq_false_iff_ne.mpr hmne
      simp only [hmeq, Bool.false_eq_true, if_false, eq_self_iff_true, if_true]
      rw [toInt32_of_lt (by omega)]
      unfold specEraAdjustedDiff
      split_ifs <;> omega
  · simp only [ge_iff_le, hab, decide_False, Bool.false_eq_true, if_false, Bool.not_false]
    by_cases hm : 2 ^ 31 ≤ b - a
    · have hmeq : (b - a) &&& 0x80000000 = 0x80000000 := (and_msb_eq_iff (by omega)).mpr hm
      simp only [hmeq, beq_self_eq_true, if_true, eq_self_iff_true, Bool.not_true]
      have hbound : 2 ^ 32 - (b - a) < 2 ^ 30 := by
        unfold specEraAdjustedDiff at hA
        split_ifs at hA <;> omega
      rw [negU32_eq (by omega), toInt32_of_lt (by omega)]
      unfold specEraAdjustedDiff
      split_ifs <;> omega
    · have hmne : (b - a) &&& 0x80000000 ≠ 0x80000000 := fun hh =>
        hm ((and_msb_eq_iff (by omega)).mp hh)
      have hmeq : ((b - a) &&& 0x80000000 == 0x80000000) = false := beq_eq_false_iff_ne.mpr hmne
      simp only [hmeq, Bool.false_eq_true, if_false]
      rw [toInt32_of_lt (by omega)]
      unfold specEraAdjustedDiff
      split_ifs <;> omega

/-- Full characterization of `calculateClockOffset`: on timestamps whose
era-adjusted differences are inside the 34-year window it returns the spec's
offset formula, otherwise the overflow sentinel. -/
theorem calculateClockOffset_spec (t1 t2 t3 t4 : SntpTimestamp)
    (h1 : t1.seconds < 2 ^ 32) (h2 : t2.seconds < 2 ^ 32)
    (h3 : t3.seconds < 2 ^ 32) (h4 : t4.seconds < 2 ^ 32) :
    calculateClockOffset t1 t2 t3 t4 =
      if (specEraAdjustedDiff t2.seconds t1.seconds).natAbs < 2 ^ 30 ∧
         (specEraAdjustedDiff t3.seconds t4.seconds).natAbs < 2 ^ 30 then
        (SntpSuccess, Int.tdiv (specEraAdjustedDiff t2.seconds t1.seconds +
            specEraAdjustedDiff t3.seconds t4.seconds) 2)
      else (SntpClockOffsetOverflow, SNTP_CLOCK_OFFSET_OVERFLOW) := by
  have bS : isEligibleForClockOffsetCalculation
      (if decide (t2.seconds ≥ t1.seconds) then t2.seconds - t1.seconds
       else t1.seconds - t2.seconds) = true ↔
      (specEraAdjustedDiff t2.seconds t1.seconds).natAbs < 2 ^ 30 := by
    by_cases hab : t1.seconds ≤ t2.seconds
    · simp only [ge_iff_le, hab, decide_True, if_true, eq_self_iff_true]
      rw [isEligible_iff (by omega)]
      unfold specEraAdjustedDiff
      split_ifs <;> omega
    · simp only [ge_iff_le, hab, decide_False, Bool.false_eq_true, if_false]
      rw [isEligible_iff (by omega)]
      unfold specEraAdjustedDiff
      split_ifs <;> omega
  have bR : isEligibleForClockOffsetCalculation
      (if decide (t3.seconds ≥ t4.seconds) then t3.seconds - t4.seconds
       else t4.seconds - t3.seconds) = true ↔
      (specEraAdjustedDiff t3.seconds t4.seconds).natAbs < 2 ^ 30 := by
    by_cases hce : t4.seconds ≤ t3.seconds
    · simp only [ge_iff_le, hce, decide_True, if_true, eq_self_iff_true]
      rw [isEligible_iff (by omega)]
      unfold specEraAdjustedDiff
      split_ifs <;> omega
    · simp only [ge_iff_le, hce, decide_False, Bool.false_eq_true, if_false]
      rw [isEligible_iff (by omega)]
      unfold specEraAdjustedDiff
      split_ifs <;> omega
  simp only [calculateClockOffset, UINT32_MOST_SIGNIFICANT_BIT_BIT_MASK]
  by_cases hA : (specEraAdjustedDiff t2.seconds t1.seconds).natAbs < 2 ^ 30 <;>
    by_cases hB : (specEraAdjustedDiff t3.seconds t4.seconds).natAbs < 2 ^ 30
  · rw [bS.mpr hA, bR.mpr hB, if_pos (show (true && true) = true from rfl),
      if_pos (And.intro hA hB),
      signedComponent_spec t2.seconds t1.seconds h2 h1 hA,
      signedComponent_spec t3.seconds t4.seconds h3 h4 hB]
  · rw [Bool.eq_false_iff.mpr (fun hx => hB (bR.mp hx)), Bool.and_false,
      if_neg Bool.false_ne_true,
      if_neg (show ¬((specEraAdjustedDiff t2.seconds t1.seconds).natAbs < 2 ^ 30 ∧
        (specEraAdjustedDiff t3.seconds t4.seconds).natAbs < 2 ^ 30) from fun hh => hB hh.2)]
  · rw [Bool.eq_false_iff.mpr (fun hx => hA (bS.mp hx)), Bool.false_and,
      if_neg Bool.false_ne_true,
      if_neg (show ¬((specEraAdjustedDiff t2.seconds t1.seconds).natAbs < 2 ^ 30 ∧
        (specEraAdjustedDiff t3.seconds t4.seconds).natAbs < 2 ^ 30) from fun hh => hA hh.1)]
  · rw [Bool.eq_false_iff.mpr (fun hx => hA (bS.mp hx)), Bool.false_and,
      if_neg Bool.false_ne_true,
      if_neg (show ¬((specEraAdjustedDiff t2.seconds t1.seconds).natAbs < 2 ^ 30 ∧
        (specEraAdjustedDiff t3.seconds t4.seconds).natAbs < 2 ^ 30) from fun hh => hA hh.1)]

/-! ### Deserialization path reductions -/

theorem and_seven_eq_mod_eight (x : Nat) : x &&& 7 = x % 8 := by
  have h := Nat.and_pow_two_sub_one_eq_mod x 3
  norm_num at h
  exact h

/-- A response with the server mode bits and a matching originate timestamp
passes the validation of `Sntp_DeserializeResponse` and is handed to
`parseValidSntpResponse`. -/
theorem deserialize_accepted (req rx : SntpTimestamp) (buf : List Nat) (size : Nat)
    (old : SntpResponseData) (hsize : 48 ≤ size)
    (hmode : readByte buf 0 % 8 = 4)
    (horigS : readWordFromNetworkByteOrderMemory buf 24 = req.seconds)
    (horigF : readWordFromNetworkByteOrderMemory buf 28 = req.fractions) :
    Sntp_DeserializeResponse (some req) (some rx) (some buf) size (some old) =
      ((parseValidSntpResponse buf req rx).1, some (parseValidSntpResponse buf req rx).2) := by
  have hmode7 : readByte buf 0 &&& SNTP_MODE_BITS_MASK = 4 := by
    unfold SNTP_MODE_BITS_MASK
    rw [show (0x07 : Nat) = 7 from rfl, and_seven_eq_mod_eight]
    exact hmode
  simp only [Sntp_DeserializeResponse, SNTP_PACKET_BASE_SIZE]
  rw [if_neg (show ¬ size < 48 by omega)]
  simp [hmode7, SNTP_MODE_SERVER, horigS, horigF]

/-- C1: For every accepted SNTP response (server mode, nonzero stratum,
originate timestamp bit-equal to the request time) whose era-adjusted
differences d(T2,T1) and d(T3,T4) both have magnitude below 2^30 seconds,
`Sntp_DeserializeResponse` returns `SntpSuccess` and sets `clockOffsetSec`
to (d(T2,T1) + d(T3,T4)) / 2 with integer division truncating toward zero. -/
theorem C1_accepted_response_clock_offset
    (req rx : SntpTimestamp) (buf : List Nat) (size : Nat) (old : SntpResponseData)
    (hsize : 48 ≤ size)
    (hreq : req.seconds < 2 ^ 32) (hrx : rx.seconds < 2 ^ 32)
    (hmode : readByte buf 0 % 8 = 4)
    (hstrat : readByte buf 1 ≠ 0)
    (horigS : readWordFromNetworkByteOrderMemory buf 24 = req.seconds)
    (horigF : readWordFromNetworkByteOrderMemory buf 28 = req.fractions)
    (hd1 : (specEraAdjustedDiff (readWordFromNetworkByteOrderMemory buf 32)
        req.seconds).natAbs < 2 ^ 30)
    (hd2 : (specEraAdjustedDiff (readWordFromNetworkByteOrderMemory buf 40)
        rx.seconds).natAbs < 2 ^ 30) :
    Sntp_DeserializeResponse (some req) (some rx) (some buf) size (some old) =
      (SntpSuccess, some
        { serverTime := ⟨readWordFromNetworkByteOrderMemory buf 40,
                         readWordFromNetworkByteOrderMemory buf 44⟩,
          leapSecondType := leapIndicatorTypeMap (readByte buf 0 >>> 6),
          rejectedResponseCode := 0,
          clockOffsetSec := Int.tdiv
            (specEraAdjustedDiff (readWordFromNetworkByteOrderMemory buf 32) req.seconds +
             specEraAdjustedDiff (readWordFromNetworkByteOrderMemory buf 40) rx.seconds) 2 }) := by
  rw [deserialize_accepted req rx buf size old hsize hmode horigS horigF]
  unfold parseValidSntpResponse SNTP_KISS_OF_DEATH_STRATUM
  rw [show (readByte buf 1 == 0) = false from beq_eq_false_iff_ne.mpr hstrat]
  simp only [Bool.false_eq_true, if_false]
  rw [calculateClockOffset_spec req ⟨readWordFromNetworkByteOrderMemory buf 32,
      readWordFromNetworkByteOrderMemory buf 36⟩
      ⟨readWordFromNetworkByteOrderMemory buf 40, readWordFromNetworkByteOrderMemory buf 44⟩ rx
      hreq (readWord_lt buf 32) (readWord_lt buf 40) hrx]
  rw [if_pos (And.intro hd1 hd2)]
  simp [SNTP_KISS_OF_DEATH_CODE_NONE, SNTP_LEAP_INDICATOR_LSB_POSITION]

theorem C1_accepted_response_clock_offset_witness :
    ((48 : Nat) ≤ 48 ∧ (100 : Nat) < 2 ^ 32 ∧ (110 : Nat) < 2 ^ 32 ∧
      readByte [36, 2, 0, 0, 0, 0, 0, 0, 0, 0, 0, 0, 0, 0, 0, 0, 0, 0, 0, 0, 0, 0, 0, 0,
        0, 0, 0, 100, 0, 0, 0, 50, 0, 0, 0, 105, 0, 0, 0, 0, 0, 0, 0, 106, 0, 0, 0, 0] 0 % 8 = 4 ∧
      readByte [36, 2, 0, 0, 0, 0, 0, 0, 0, 0, 0, 0, 0, 0, 0, 0, 0, 0, 0, 0, 0, 0, 0, 0,
        0, 0, 0, 100, 0, 0, 0, 50, 0, 0, 0, 105, 0, 0, 0, 0, 0, 0, 0, 106, 0, 0, 0, 0] 1 ≠ 0 ∧
      readWordFromNetworkByteOrderMemory [36, 2, 0, 0, 0, 0, 0, 0, 0, 0, 0, 0, 0, 0, 0, 0,
        0, 0, 0, 0, 0, 0, 0, 0, 0, 0, 0, 100, 0, 0, 0, 50, 0, 0, 0, 105, 0, 0, 0, 0,
        0, 0, 0, 106, 0, 0, 0, 0] 24 = 100 ∧
      readWordFromNetworkByteOrderMemory [36, 2, 0, 0, 0, 0, 0, 0, 0, 0, 0, 0, 0, 0, 0, 0,
        0, 0, 0, 0, 0, 0, 0, 0, 0, 0, 0, 100, 0, 0, 0, 50, 0, 0, 0, 105, 0, 0, 0, 0,
        0, 0, 0, 106, 0, 0, 0, 0] 28 = 50 ∧
      (specEraAdjustedDiff (readWordFromNetworkByteOrderMemory [36, 2, 0, 0, 0, 0, 0, 0,
        0, 0, 0, 0, 0, 0, 0, 0, 0, 0, 0, 0, 0, 0, 0, 0, 0, 0, 0, 100, 0, 0, 0, 50,
        0, 0, 0, 105, 0, 0, 0, 0, 0, 0, 0, 106, 0, 0, 0, 0] 32) 100).natAbs < 2 ^ 30 ∧
      (specEraAdjustedDiff (readWordFromNetworkByteOrderMemory [36, 2, 0, 0, 0, 0, 0, 0,
        0, 0, 0, 0, 0, 0, 0, 0, 0, 0, 0, 0, 0, 0, 0, 0, 0, 0, 0, 100, 0, 0, 0, 50,
        0, 0, 0, 105, 0, 0, 0, 0, 0, 0, 0, 106, 0, 0, 0, 0] 40) 110).natAbs < 2 ^ 30) ∧
    Sntp_DeserializeResponse (some ⟨100, 50⟩) (some ⟨110, 0⟩)
      (some [36, 2, 0, 0, 0, 0, 0, 0, 0, 0, 0, 0, 0, 0, 0, 0, 0, 0, 0, 0, 0, 0, 0, 0,
        0, 0, 0, 100, 0, 0, 0, 50, 0, 0, 0, 105, 0, 0, 0, 0, 0, 0, 0, 106, 0, 0, 0, 0])
      48 (some SntpResponseData.zero) =
      (SntpSuccess, some
        { serverTime := ⟨readWordFromNetworkByteOrderMemory [36, 2, 0, 0, 0, 0, 0, 0,
            0, 0, 0, 0, 0, 0, 0, 0, 0, 0, 0, 0, 0, 0, 0, 0, 0, 0, 0, 100, 0, 0, 0, 50,
            0, 0, 0, 105, 0, 0, 0, 0, 0, 0, 0, 106, 0, 0, 0, 0] 40,
            readWordFromNetworkByteOrderMemory [36, 2, 0, 0, 0, 0, 0, 0, 0, 0, 0, 0,
            0, 0, 0, 0, 0, 0, 0, 0, 0, 0, 0, 0, 0, 0, 0, 100, 0, 0, 0, 50, 0, 0, 0, 105,
            0, 0, 0, 0, 0, 0, 0, 106, 0, 0, 0, 0] 44⟩,
          leapSecondType := leapIndicatorTypeMap (readByte [36, 2, 0, 0, 0, 0, 0, 0,
            0, 0, 0, 0, 0, 0, 0, 0, 0, 0, 0, 0, 0, 0, 0, 0, 0, 0, 0, 100, 0, 0, 0, 50,
            0, 0, 0, 105, 0, 0, 0, 0, 0, 0, 0, 106, 0, 0, 0, 0] 0 >>> 6),
          rejectedResponseCode := 0,
          clockOffsetSec := Int.tdiv
            (specEraAdjustedDiff (readWordFromNetworkByteOrderMemory [36, 2, 0, 0, 0, 0, 0, 0,
              0, 0, 0, 0, 0, 0, 0, 0, 0, 0, 0, 0, 0, 0, 0, 0, 0, 0, 0, 100, 0, 0, 0, 50,
              0, 0, 0, 105, 0, 0, 0, 0, 0, 0, 0, 106, 0, 0, 0, 0] 32) 100 +
             specEraAdjustedDiff (readWordFromNetworkByteOrderMemory [36, 2, 0, 0, 0, 0, 0, 0,
              0, 0, 0, 0, 0, 0, 0, 0, 0, 0, 0, 0, 0, 0, 0, 0, 0, 0, 0, 100, 0, 0, 0, 50,
              0, 0, 0, 105, 0, 0, 0, 0, 0, 0, 0, 106, 0, 0, 0, 0] 40) 110) 2 }) :=
  ⟨by decide,
   C1_accepted_response_clock_offset ⟨100, 50⟩ ⟨110, 0⟩ _ 48 SntpResponseData.zero
     (by decide) (by decide) (by decide) (by decide) (by decide) (by decide) (by decide)
     (by decide) (by decide)⟩

/-- C2: On an accepted (server mode, originate-matching, nonzero stratum)
response whose era-adjusted differences both have magnitude at least 2^30
seconds, `Sntp_DeserializeResponse` returns `SntpClockOffsetOverflow`, sets
`clockOffsetSec` to the sentinel 0x7FFFFFFF, and still populates
`serverTime` and `leapSecondType` from the packet. -/
theorem C2_overflow_sentinel
    (req rx : SntpTimestamp) (buf : List Nat) (size : Nat) (old : SntpResponseData)
    (hsize : 48 ≤ size)
    (hreq : req.seconds < 2 ^ 32) (hrx : rx.seconds < 2 ^ 32)
    (hmode : readByte buf 0 % 8 = 4)
    (hstrat : readByte buf 1 ≠ 0)
    (horigS : readWordFromNetworkByteOrderMemory buf 24 = req.seconds)
    (horigF : readWordFromNetworkByteOrderMemory buf 28 = req.fractions)
    (hd1 : 2 ^ 30 ≤ (specEraAdjustedDiff (readWordFromNetworkByteOrderMemory buf 32)
        req.seconds).natAbs)
    (hd2 : 2 ^ 30 ≤ (specEraAdjustedDiff (readWordFromNetworkByteOrderMemory buf 40)
        rx.seconds).natAbs) :
    Sntp_DeserializeResponse (some req) (some rx) (some buf) size (some old) =
      (SntpClockOffsetOverflow, some
        { serverTime := ⟨readWordFromNetworkByteOrderMemory buf 40,
                         readWordFromNetworkByteOrderMemory buf 44⟩,
          leapSecondType := leapIndicatorTypeMap (readByte buf 0 >>> 6),
          rejectedResponseCode := 0,
          clockOffsetSec := 0x7FFFFFFF }) := by
  rw [deserialize_accepted req rx buf size old hsize hmode horigS horigF]
  unfold parseValidSntpResponse SNTP_KISS_OF_DEATH_STRATUM
  rw [show (readByte buf 1 == 0) = false from beq_eq_false_iff_ne.mpr hstrat]
  simp only [Bool.false_eq_true, if_false]
  rw [calculateClockOffset_spec req ⟨readWordFromNetworkByteOrderMemory buf 32,
      readWordFromNetworkByteOrderMemory buf 36⟩
      ⟨readWordFromNetworkByteOrderMemory buf 40, readWordFromNetworkByteOrderMemory buf 44⟩ rx
      hreq (readWord_lt buf 32) (readWord_lt buf 40) hrx]
  rw [if_neg (show ¬((specEraAdjustedDiff (readWordFromNetworkByteOrderMemory buf 32)
        req.seconds).natAbs < 2 ^ 30 ∧
      (specEraAdjustedDiff (readWordFromNetworkByteOrderMemory buf 40)
        rx.seconds).natAbs < 2 ^ 30) from fun hh => absurd hh.1 (by omega))]
  simp [SNTP_KISS_OF_DEATH_CODE_NONE, SNTP_LEAP_INDICATOR_LSB_POSITION,
    SNTP_CLOCK_OFFSET_OVERFLOW]

theorem C2_overflow_sentinel_witness :
    ((48 : Nat) ≤ 48 ∧ (0 : Nat) < 2 ^ 32 ∧
      readByte [36, 2, 0, 0, 0, 0, 0, 0, 0, 0, 0, 0, 0, 0, 0, 0, 0, 0, 0, 0, 0, 0, 0, 0,
        0, 0, 0, 0, 0, 0, 0, 0, 128, 0, 0, 0, 0, 0, 0, 0, 128, 0, 0, 0, 0, 0, 0, 0] 0 % 8 = 4 ∧
      readByte [36, 2, 0, 0, 0, 0, 0, 0, 0, 0, 0, 0, 0, 0, 0, 0, 0, 0, 0, 0, 0, 0, 0, 0,
        0, 0, 0, 0, 0, 0, 0, 0, 128, 0, 0, 0, 0, 0, 0, 0, 128, 0, 0, 0, 0, 0, 0, 0] 1 ≠ 0 ∧
      readWordFromNetworkByteOrderMemory [36, 2, 0, 0, 0, 0, 0, 0, 0, 0, 0, 0, 0, 0, 0, 0,
        0, 0, 0, 0, 0, 0, 0, 0, 0, 0, 0, 0, 0, 0, 0, 0, 128, 0, 0, 0, 0, 0, 0, 0,
        128, 0, 0, 0, 0, 0, 0, 0] 24 = 0 ∧
      2 ^ 30 ≤ (specEraAdjustedDiff (readWordFromNetworkByteOrderMemory [36, 2, 0, 0,
        0, 0, 0, 0, 0, 0, 0, 0, 0, 0, 0, 0, 0, 0, 0, 0, 0, 0, 0, 0, 0, 0, 0, 0, 0, 0, 0, 0,
        128, 0, 0, 0, 0, 0, 0, 0, 128, 0, 0, 0, 0, 0, 0, 0] 32) 0).natAbs ∧
      2 ^ 30 ≤ (specEraAdjustedDiff (readWordFromNetworkByteOrderMemory [36, 2, 0, 0,
        0, 0, 0, 0, 0, 0, 0, 0, 0, 0, 0, 0, 0, 0, 0, 0, 0, 0, 0, 0, 0, 0, 0, 0, 0, 0, 0, 0,
        128, 0, 0, 0, 0, 0, 0, 0, 128, 0, 0, 0, 0, 0, 0, 0] 40) 0).natAbs) ∧
    Sntp_DeserializeResponse (some ⟨0, 0⟩) (some ⟨0, 0⟩)
      (some [36, 2, 0, 0, 0, 0, 0, 0, 0, 0, 0, 0, 0, 0, 0, 0, 0, 0, 0, 0, 0, 0, 0, 0,
        0, 0, 0, 0, 0, 0, 0, 0, 128, 0, 0, 0, 0, 0, 0, 0, 128, 0, 0, 0, 0, 0, 0, 0])
      48 (some SntpResponseData.zero) =
      (SntpClockOffsetOverflow, some
        { serverTime := ⟨readWordFromNetworkByteOrderMemory [36, 2, 0, 0, 0, 0, 0, 0,
            0, 0, 0, 0, 0, 0, 0, 0, 0, 0, 0, 0, 0, 0, 0, 0, 0, 0, 0, 0, 0, 0, 0, 0,
            128, 0, 0, 0, 0, 0, 0, 0, 128, 0, 0, 0, 0, 0, 0, 0] 40,
            readWordFromNetworkByteOrderMemory [36, 2, 0, 0, 0, 0, 0, 0, 0, 0, 0, 0,
            0, 0, 0, 0, 0, 0, 0, 0, 0, 0, 0, 0, 0, 0, 0, 0, 0, 0, 0, 0, 128, 0, 0, 0,
            0, 0, 0, 0, 128, 0, 0, 0, 0, 0, 0, 0] 44⟩,
          leapSecondType := leapIndicatorTypeMap (readByte [36, 2, 0, 0, 0, 0, 0, 0,
            0, 0, 0, 0, 0, 0, 0, 0, 0, 0, 0, 0, 0, 0, 0, 0, 0, 0, 0, 0, 0, 0, 0, 0,
            128, 0, 0, 0, 0, 0, 0, 0, 128, 0, 0, 0, 0, 0, 0, 0] 0 >>> 6),
          rejectedResponseCode := 0,
          clockOffsetSec := 0x7FFFFFFF }) :=
  ⟨by decide,
   C2_overflow_sentinel ⟨0, 0⟩ ⟨0, 0⟩ _ 48 SntpResponseData.zero
     (by decide) (by decide) (by decide) (by decide) (by decide) (by decide) (by decide)
     (by decide) (by decide)⟩

/-- C3: Every at-least-48-byte response whose big-endian originate timestamp
field (bytes 24..31) differs from the request time yields
`SntpInvalidResponse`. -/
theorem C3_originate_mismatch_rejected
    (req rx : SntpTimestamp) (buf : List Nat) (size : Nat) (old : SntpResponseData)
    (hsize : 48 ≤ size)
    (hmism : readWordFromNetworkByteOrderMemory buf 24 ≠ req.seconds ∨
             readWordFromNetworkByteOrderMemory buf 28 ≠ req.fractions) :
    (Sntp_DeserializeResponse (some req) (some rx) (some buf) size (some old)).1 =
      SntpInvalidResponse := by
  simp only [Sntp_DeserializeResponse, SNTP_PACKET_BASE_SIZE]
  rw [if_neg (show ¬ size < 48 by omega)]
  rcases hmism with h | h <;>
    by_cases hm : readByte buf 0 &&& SNTP_MODE_BITS_MASK = SNTP_MODE_SERVER
  · simp [hm, Ne.symm h]
  · simp [hm]
  · simp [hm, Ne.symm h]
  · simp [hm]

theorem C3_originate_mismatch_rejected_witness :
    ((48 : Nat) ≤ 48 ∧
      (readWordFromNetworkByteOrderMemory [36, 2, 0, 0, 0, 0, 0, 0, 0, 0, 0, 0, 0, 0, 0, 0,
        0, 0, 0, 0, 0, 0, 0, 0, 0, 0, 0, 0, 0, 0, 0, 0, 0, 0, 0, 0, 0, 0, 0, 0,
        0, 0, 0, 0, 0, 0, 0, 0] 24 ≠ (1 : Nat) ∨
       readWordFromNetworkByteOrderMemory [36, 2, 0, 0, 0, 0, 0, 0, 0, 0, 0, 0, 0, 0, 0, 0,
        0, 0, 0, 0, 0, 0, 0, 0, 0, 0, 0, 0, 0, 0, 0, 0, 0, 0, 0, 0, 0, 0, 0, 0,
        0, 0, 0, 0, 0, 0, 0, 0] 28 ≠ (1 : Nat))) ∧
    (Sntp_DeserializeResponse (some ⟨1, 1⟩) (some ⟨5, 0⟩)
      (some [36, 2, 0, 0, 0, 0, 0, 0, 0, 0, 0, 0, 0, 0, 0, 0, 0, 0, 0, 0, 0, 0, 0, 0,
        0, 0, 0, 0, 0, 0, 0, 0, 0, 0, 0, 0, 0, 0, 0, 0, 0, 0, 0, 0, 0, 0, 0, 0])
      48 (some SntpResponseData.zero)).1 = SntpInvalidResponse :=
  ⟨by decide,
   C3_originate_mismatch_rejected ⟨1, 1⟩ ⟨5, 0⟩ _ 48 SntpResponseData.zero
     (by decide) (by decide)⟩

/-- C5: A mode/originate-validated response with stratum 0 is classified by
the big-endian reference-ID reading: DENY/RSTR give
`SntpRejectedResponseChangeServer`, RATE gives
`SntpRejectedResponseRetryWithBackoff`, anything else
`SntpRejectedResponseOtherCode`; `rejectedResponseCode` holds that reading
and all other output fields are zero. -/
theorem C5_kiss_of_death_classification
    (req rx : SntpTimestamp) (buf : List Nat) (size : Nat) (old : SntpResponseData)
    (hsize : 48 ≤ size)
    (hmode : readByte buf 0 % 8 = 4)
    (horigS : readWordFromNetworkByteOrderMemory buf 24 = req.seconds)
    (horigF : readWordFromNetworkByteOrderMemory buf 28 = req.fractions)
    (hstrat : readByte buf 1 = 0) :
    Sntp_DeserializeResponse (some req) (some rx) (some buf) size (some old) =
      (if readWordFromNetworkByteOrderMemory buf 12 = 0x44454E59 ∨
          readWordFromNetworkByteOrderMemory buf 12 = 0x52535452 then
         SntpRejectedResponseChangeServer
       else if readWordFromNetworkByteOrderMemory buf 12 = 0x52415445 then
         SntpRejectedResponseRetryWithBackoff
       else SntpRejectedResponseOtherCode,
       some { serverTime := ⟨0, 0⟩, leapSecondType := .NoLeapSecond,
              rejectedResponseCode := readWordFromNetworkByteOrderMemory buf 12,
              clockOffsetSec := 0 }) := by
  rw [deserialize_accepted req rx buf size old hsize hmode horigS horigF]
  unfold parseValidSntpResponse SNTP_KISS_OF_DEATH_STRATUM KOD_CODE_DENY_UINT_VALUE
    KOD_CODE_RSTR_UINT_VALUE KOD_CODE_RATE_UINT_VALUE
  rw [show (readByte buf 1 == 0) = true from by simp [hstrat]]
  simp [SntpResponseData.zero]

theorem C5_kiss_of_death_classification_witness :
    ((48 : Nat) ≤ 48 ∧
      readByte [36, 0, 0, 0, 0, 0, 0, 0, 0, 0, 0, 0, 82, 65, 84, 69, 0, 0, 0, 0, 0, 0, 0, 0,
        0, 0, 0, 0, 0, 0, 0, 0, 0, 0, 0, 0, 0, 0, 0, 0, 0, 0, 0, 0, 0, 0, 0, 0] 0 % 8 = 4 ∧
      readWordFromNetworkByteOrderMemory [36, 0, 0, 0, 0, 0, 0, 0, 0, 0, 0, 0,
        82, 65, 84, 69, 0, 0, 0, 0, 0, 0, 0, 0, 0, 0, 0, 0, 0, 0, 0, 0, 0, 0, 0, 0,
        0, 0, 0, 0, 0, 0, 0, 0, 0, 0, 0, 0] 24 = 0 ∧
      readByte [36, 0, 0, 0, 0, 0, 0, 0, 0, 0, 0, 0, 82, 65, 84, 69, 0, 0, 0, 0, 0, 0, 0, 0,
        0, 0, 0, 0, 0, 0, 0, 0, 0, 0, 0, 0, 0, 0, 0, 0, 0, 0, 0, 0, 0, 0, 0, 0] 1 = 0) ∧
    Sntp_DeserializeResponse (some ⟨0, 0⟩) (some ⟨7, 0⟩)
      (some [36, 0, 0, 0, 0, 0, 0, 0, 0, 0, 0, 0, 82, 65, 84, 69, 0, 0, 0, 0, 0, 0, 0, 0,
        0, 0, 0, 0, 0, 0, 0, 0, 0, 0, 0, 0, 0, 0, 0, 0, 0, 0, 0, 0, 0, 0, 0, 0])
      48 (some SntpResponseData.zero) =
      (if readWordFromNetworkByteOrderMemory [36, 0, 0, 0, 0, 0, 0, 0, 0, 0, 0, 0,
          82, 65, 84, 69, 0, 0, 0, 0, 0, 0, 0, 0, 0, 0, 0, 0, 0, 0, 0, 0, 0, 0, 0, 0,
          0, 0, 0, 0, 0, 0, 0, 0, 0, 0, 0, 0] 12 = 0x44454E59 ∨
          readWordFromNetworkByteOrderMemory [36, 0, 0, 0, 0, 0, 0, 0, 0, 0, 0, 0,
          82, 65, 84, 69, 0, 0, 0, 0, 0, 0, 0, 0, 0, 0, 0, 0, 0, 0, 0, 0, 0, 0, 0, 0,
          0, 0, 0, 0, 0, 0, 0, 0, 0, 0, 0, 0] 12 = 0x52535452 then
         SntpRejectedResponseChangeServer
       else if readWordFromNetworkByteOrderMemory [36, 0, 0, 0, 0, 0, 0, 0, 0, 0, 0, 0,
          82, 65, 84, 69, 0, 0, 0, 0, 0, 0, 0, 0, 0, 0, 0, 0, 0, 0, 0, 0, 0, 0, 0, 0,
          0, 0, 0, 0, 0, 0, 0, 0, 0, 0, 0, 0] 12 = 0x52415445 then
         SntpRejectedResponseRetryWithBackoff
       else SntpRejectedResponseOtherCode,
       some { serverTime := ⟨0, 0⟩, leapSecondType := .NoLeapSecond,
              rejectedResponseCode := readWordFromNetworkByteOrderMemory [36, 0, 0, 0,
                0, 0, 0, 0, 0, 0, 0, 0, 82, 65, 84, 69, 0, 0, 0, 0, 0, 0, 0, 0,
                0, 0, 0, 0, 0, 0, 0, 0, 0, 0, 0, 0, 0, 0, 0, 0, 0, 0, 0, 0,
                0, 0, 0, 0] 12,
              clockOffsetSec := 0 }) :=
  ⟨by decide,
   C5_kiss_of_death_classification ⟨0, 0⟩ ⟨7, 0⟩ _ 48 SntpResponseData.zero
     (by decide) (by decide) (by decide) (by decide) (by decide)⟩

/-- C4: For non-null arguments and a buffer size of at least 48,
`Sntp_SerializeRequest` succeeds, writes back
`fractions ||| (randomNumber >>> 16)` into the caller's request time, and
produces a packet whose byte 0 is `(4 <<< 3) ||| 3`, whose bytes 1..39 are
zero, and whose transmit-timestamp field (bytes 40..47) holds the updated
time big-endian (reading it back big-endian recovers the values, independent
of any host byte order). -/
theorem C4_serialize_request
    (req : SntpTimestamp) (rand : Nat) (buf : List Nat) (size : Nat)
    (hsize : 48 ≤ size) (hsec : req.seconds < 2 ^ 32) (hfrac : req.fractions < 2 ^ 32)
    (hrand : rand < 2 ^ 32) :
    Sntp_SerializeRequest (some req) rand (some buf) size =
      (SntpSuccess, some ⟨req.seconds, req.fractions ||| (rand >>> 16)⟩,
       some (serializedRequestPacket ⟨req.seconds, req.fractions ||| (rand >>> 16)⟩ ++
         buf.drop 48)) ∧
    readByte (serializedRequestPacket ⟨req.seconds, req.fractions ||| (rand >>> 16)⟩) 0 =
      (4 <<< 3) ||| 3 ∧
    (∀ i, 1 ≤ i → i < 40 →
      readByte (serializedRequestPacket ⟨req.seconds, req.fractions ||| (rand >>> 16)⟩) i = 0) ∧
    readWordFromNetworkByteOrderMemory
      (serializedRequestPacket ⟨req.seconds, req.fractions ||| (rand >>> 16)⟩) 40 =
      req.seconds ∧
    readWordFromNetworkByteOrderMemory
      (serializedRequestPacket ⟨req.seconds, req.fractions ||| (rand >>> 16)⟩) 44 =
      req.fractions ||| (rand >>> 16) := by
  have hF : req.fractions ||| (rand >>> 16) < 2 ^ 32 :=
    Nat.or_lt_two_pow hfrac (by rw [Nat.shiftRight_eq_div_pow]; omega)
  refine ⟨?_, ?_, ?_, ?_, ?_⟩
  · simp only [Sntp_SerializeRequest, SNTP_PACKET_BASE_SIZE]
    rw [if_neg (show ¬ size < 48 by omega)]
  · simp only [serializedRequestPacket, readByte, List.cons_append, List.getD_cons_zero]
    decide
  · intro i hi1 hi2
    interval_cases i <;> rfl
  · rw [readWord_eq]
    simp only [serializedRequestPacket, fillWord_eq, readByte, List.cons_append,
      List.nil_append, List.getD_cons_succ, List.getD_cons_zero]
    omega
  · rw [readWord_eq]
    simp only [serializedRequestPacket, fillWord_eq, readByte, List.cons_append,
      List.nil_append, List.getD_cons_succ, List.getD_cons_zero]
    omega

theorem C4_serialize_request_witness :
    ((48 : Nat) ≤ 48 ∧ (1 : Nat) < 2 ^ 32 ∧ (2 : Nat) < 2 ^ 32 ∧ (2864434397 : Nat) < 2 ^ 32) ∧
    (Sntp_SerializeRequest (some ⟨1, 2⟩) 2864434397 (some []) 48 =
      (SntpSuccess, some ⟨1, 2 ||| (2864434397 >>> 16)⟩,
       some (serializedRequestPacket ⟨1, 2 ||| (2864434397 >>> 16)⟩ ++ List.drop 48 [])) ∧
     readByte (serializedRequestPacket ⟨1, 2 ||| (2864434397 >>> 16)⟩) 0 = (4 <<< 3) ||| 3 ∧
     (∀ i, 1 ≤ i → i < 40 →
       readByte (serializedRequestPacket ⟨1, 2 ||| (2864434397 >>> 16)⟩) i = 0) ∧
     readWordFromNetworkByteOrderMemory
       (serializedRequestPacket ⟨1, 2 ||| (2864434397 >>> 16)⟩) 40 = 1 ∧
     readWordFromNetworkByteOrderMemory
       (serializedRequestPacket ⟨1, 2 ||| (2864434397 >>> 16)⟩) 44 =
       2 ||| (2864434397 >>> 16)) :=
  ⟨by decide,
   C4_serialize_request ⟨1, 2⟩ 2864434397 [] 48 (by decide) (by decide) (by decide) (by decide)⟩

/-- The halving loop of `Sntp_CalculatePollInterval` computes one more than
the floor base-2 logarithm (as iteration count on top of `l`). -/
theorem pollLoop_bounds :
    ∀ x, 0 < x → ∀ l, 2 ^ (pollIntervalBitCountLoop x l - l - 1) ≤ x ∧
      x < 2 ^ (pollIntervalBitCountLoop x l - l) ∧ l + 1 ≤ pollIntervalBitCountLoop x l := by
  intro x
  induction x using Nat.strong_induction_on with
  | _ x ih =>
    intro hx l
    rw [pollIntervalBitCountLoop, if_neg (show ¬ x = 0 by omega)]
    by_cases h2 : 2 ≤ x
    · obtain ⟨ha, hb, hc⟩ := ih (x / 2) (by omega) (by omega) (l + 1)
      set P := pollIntervalBitCountLoop (x / 2) (l + 1) with hP
      have e1 : 2 ^ (P - l - 1) = 2 * 2 ^ (P - l - 1 - 1) := by
        rw [← Nat.pow_succ']
        congr 1
        omega
      have e2 : 2 ^ (P - l) = 2 * 2 ^ (P - l - 1) := by
        rw [← Nat.pow_succ']
        congr 1
        omega
      have ha2 : 2 ^ (P - (l + 1) - 1) = 2 ^ (P - l - 1 - 1) := by congr 1
      have hb2 : 2 ^ (P - (l + 1)) = 2 ^ (P - l - 1) := by congr 1
      rw [ha2] at ha
      rw [hb2] at hb
      omega
    · have hx1 : x = 1 := by omega
      subst hx1
      rw [show (1 : Nat) / 2 = 0 from rfl, pollIntervalBitCountLoop, if_pos rfl]
      simp

/-- C8: With nonzero tolerance and accuracy and a non-null output pointer,
`Sntp_CalculatePollInterval` returns `SntpZeroPollInterval` when
`accuracy * 1000 / tolerance` is zero and otherwise stores the largest power
of two at most that exact interval; a zero input or null output pointer
yields `SntpErrorBadParameter`. -/
theorem C8_poll_interval (tol acc : Nat) (hasOut : Bool)
    (htol : tol < 2 ^ 16) (hacc : acc < 2 ^ 16) :
    ((tol = 0 ∨ acc = 0 ∨ hasOut = false) →
        Sntp_CalculatePollInterval tol acc hasOut = (SntpErrorBadParameter, none)) ∧
    (tol ≠ 0 → acc ≠ 0 → hasOut = true →
      (acc * 1000 / tol = 0 →
          Sntp_CalculatePollInterval tol acc hasOut = (SntpZeroPollInterval, none)) ∧
      (acc * 1000 / tol ≠ 0 →
        ∃ k, Sntp_CalculatePollInterval tol acc hasOut = (SntpSuccess, some (2 ^ k)) ∧
          2 ^ k ≤ acc * 1000 / tol ∧ acc * 1000 / tol < 2 ^ (k + 1))) := by
  constructor
  · intro h
    simp only [Sntp_CalculatePollInterval]
    rw [if_pos h]
  · intro h1 h2 h3
    have hng : ¬(tol = 0 ∨ acc = 0 ∨ hasOut = false) := by
      rintro (h | h | h) <;> simp_all
    constructor
    · intro hz
      simp only [Sntp_CalculatePollInterval]
      rw [if_neg hng, if_pos hz]
    · intro hnz
      simp only [Sntp_CalculatePollInterval]
      rw [if_neg hng, if_neg hnz]
      obtain ⟨hL1, hL2, hL3⟩ := pollLoop_bounds (acc * 1000 / tol) (Nat.pos_of_ne_zero hnz) 0
      simp only [Nat.sub_zero] at hL1 hL2
      refine ⟨pollIntervalBitCountLoop (acc * 1000 / tol) 0 - 1, ?_, hL1, ?_⟩
      · rw [Nat.shiftLeft_eq, Nat.one_mul]
      · rw [show pollIntervalBitCountLoop (acc * 1000 / tol) 0 - 1 + 1 =
            pollIntervalBitCountLoop (acc * 1000 / tol) 0 from by omega]
        exact hL2

theorem C8_poll_interval_witness :
    ((200 : Nat) < 2 ^ 16 ∧ (60000 : Nat) < 2 ^ 16) ∧
    ((((200 : Nat) = 0 ∨ (60000 : Nat) = 0 ∨ true = false) →
        Sntp_CalculatePollInterval 200 60000 true = (SntpErrorBadParameter, none)) ∧
     ((200 : Nat) ≠ 0 → (60000 : Nat) ≠ 0 → true = true →
       ((60000 : Nat) * 1000 / 200 = 0 →
           Sntp_CalculatePollInterval 200 60000 true = (SntpZeroPollInterval, none)) ∧
       ((60000 : Nat) * 1000 / 200 ≠ 0 →
         ∃ k, Sntp_CalculatePollInterval 200 60000 true = (SntpSuccess, some (2 ^ k)) ∧
           2 ^ k ≤ 60000 * 1000 / 200 ∧ (60000 : Nat) * 1000 / 200 < 2 ^ (k + 1)))) :=
  ⟨by decide, C8_poll_interval 200 60000 true (by decide) (by decide)⟩

/-- C9: For non-null arguments, `Sntp_ConvertToUnixTime` succeeds exactly
when the SNTP seconds lie in [2208988800, 2^32) or [0, 61505151]; era-0
values map to seconds − 2208988800, era-1 values to 2085978496 + seconds,
and this seconds mapping is a bijection onto [0, 2^31 − 1]; microseconds are
fractions / 4295; all other seconds yield `SntpErrorTimeNotSupported`. -/
theorem C9_convert_to_unix_time (t : SntpTimestamp) (ht : t.seconds < 2 ^ 32) :
    ((2208988800 ≤ t.seconds ∨ t.seconds ≤ 61505151) →
        Sntp_ConvertToUnixTime (some t) true true =
          (SntpSuccess,
           some (if t.seconds ≤ 61505151 then 2085978496 + t.seconds
                 else t.seconds - 2208988800),
           some (t.fractions / 4295))) ∧
    (61505151 < t.seconds ∧ t.seconds < 2208988800 →
        Sntp_ConvertToUnixTime (some t) true true = (SntpErrorTimeNotSupported, none, none)) ∧
    (∀ s : Nat, s < 2 ^ 32 → (2208988800 ≤ s ∨ s ≤ 61505151) →
      ∃ u : Nat, u < 2 ^ 31 ∧ (Sntp_ConvertToUnixTime (some ⟨s, 0⟩) true true).2.1 = some u) ∧
    (∀ u : Nat, u < 2 ^ 31 →
      ∃ s : Nat, s < 2 ^ 32 ∧ (2208988800 ≤ s ∨ s ≤ 61505151) ∧
        (Sntp_ConvertToUnixTime (some ⟨s, 0⟩) true true).2.1 = some u ∧
        ∀ s2 : Nat, s2 < 2 ^ 32 → (2208988800 ≤ s2 ∨ s2 ≤ 61505151) →
          (Sntp_ConvertToUnixTime (some ⟨s2, 0⟩) true true).2.1 = some u → s2 = s) := by
  refine ⟨?_, ?_, ?_, ?_⟩
  · intro h
    simp only [Sntp_ConvertToUnixTime, SNTP_TIME_AT_LARGEST_UNIX_TIME_SECS,
      SNTP_TIME_AT_UNIX_EPOCH_SECS, UNIX_TIME_SECS_AT_SNTP_ERA_1_SMALLEST_TIME,
      SNTP_FRACTION_VALUE_PER_MICROSECOND]
    rw [if_neg (by simp), if_neg (by omega)]
  · intro h
    simp only [Sntp_ConvertToUnixTime, SNTP_TIME_AT_LARGEST_UNIX_TIME_SECS,
      SNTP_TIME_AT_UNIX_EPOCH_SECS]
    rw [if_neg (by simp), if_pos (by omega)]
  · intro s hs hval
    refine ⟨if s ≤ 61505151 then 2085978496 + s else s - 2208988800, by split_ifs <;> omega, ?_⟩
    simp only [Sntp_ConvertToUnixTime, SNTP_TIME_AT_LARGEST_UNIX_TIME_SECS,
      SNTP_TIME_AT_UNIX_EPOCH_SECS, UNIX_TIME_SECS_AT_SNTP_ERA_1_SMALLEST_TIME]
    rw [if_neg (by simp), if_neg (by omega)]
  · intro u hu
    refine ⟨if 2085978496 ≤ u then u - 2085978496 else u + 2208988800,
      by split_ifs <;> omega, by split_ifs <;> omega, ?_, ?_⟩
    · simp only [Sntp_ConvertToUnixTime, SNTP_TIME_AT_LARGEST_UNIX_TIME_SECS,
        SNTP_TIME_AT_UNIX_EPOCH_SECS, UNIX_TIME_SECS_AT_SNTP_ERA_1_SMALLEST_TIME]
      rw [if_neg (by simp), if_neg (by split_ifs <;> omega)]
      simp only [Option.some.injEq]
      split_ifs <;> omega
    · intro s2 h1 h2 h3
      simp only [Sntp_ConvertToUnixTime, SNTP_TIME_AT_LARGEST_UNIX_TIME_SECS,
        SNTP_TIME_AT_UNIX_EPOCH_SECS, UNIX_TIME_SECS_AT_SNTP_ERA_1_SMALLEST_TIME] at h3
      rw [if_neg (by simp), if_neg (by omega)] at h3
      simp only [Option.some.injEq] at h3
      split_ifs at h3 ⊢ <;> omega

theorem C9_convert_to_unix_time_witness :
    ((2208988805 : Nat) < 2 ^ 32) ∧
    (((2208988800 : Nat) ≤ 2208988805 ∨ (2208988805 : Nat) ≤ 61505151) →
        Sntp_ConvertToUnixTime (some ⟨2208988805, 8590⟩) true true =
          (SntpSuccess,
           some (if (2208988805 : Nat) ≤ 61505151 then 2085978496 + 2208988805
                 else 2208988805 - 2208988800),
           some (8590 / 4295))) ∧
    ((61505151 : Nat) < 2208988805 ∧ (2208988805 : Nat) < 2208988800 →
        Sntp_ConvertToUnixTime (some ⟨2208988805, 8590⟩) true true =
          (SntpErrorTimeNotSupported, none, none)) ∧
    (∀ s : Nat, s < 2 ^ 32 → (2208988800 ≤ s ∨ s ≤ 61505151) →
      ∃ u : Nat, u < 2 ^ 31 ∧ (Sntp_ConvertToUnixTime (some ⟨s, 0⟩) true true).2.1 = some u) ∧
    (∀ u : Nat, u < 2 ^ 31 →
      ∃ s : Nat, s < 2 ^ 32 ∧ (2208988800 ≤ s ∨ s ≤ 61505151) ∧
        (Sntp_ConvertToUnixTime (some ⟨s, 0⟩) true true).2.1 = some u ∧
        ∀ s2 : Nat, s2 < 2 ^ 32 → (2208988800 ≤ s2 ∨ s2 ≤ 61505151) →
          (Sntp_ConvertToUnixTime (some ⟨s2, 0⟩) true true).2.1 = some u → s2 = s) :=
  ⟨by decide, C9_convert_to_unix_time ⟨2208988805, 8590⟩ (by decide)⟩

/-! ### Status ranges of the parsing layer -/

theorem calcOffset_status_cases (t1 t2 t3 t4 : SntpTimestamp) :
    (calculateClockOffset t1 t2 t3 t4).1 = SntpSuccess ∨
    (calculateClockOffset t1 t2 t3 t4).1 = SntpClockOffsetOverflow := by
  simp only [calculateClockOffset]
  split_ifs <;> simp

theorem parse_status_cases (buf : List Nat) (a b : SntpTimestamp) :
    (parseValidSntpResponse buf a b).1 = SntpRejectedResponseChangeServer ∨
    (parseValidSntpResponse buf a b).1 = SntpRejectedResponseRetryWithBackoff ∨
    (parseValidSntpResponse buf a b).1 = SntpRejectedResponseOtherCode ∨
    (parseValidSntpResponse buf a b).1 = SntpSuccess ∨
    (parseValidSntpResponse buf a b).1 = SntpClockOffsetOverflow := by
  simp only [parseValidSntpResponse]
  split_ifs
  · simp
  · simp
  · simp
  · rcases calcOffset_status_cases a
        ⟨readWordFromNetworkByteOrderMemory buf 32, readWordFromNetworkByteOrderMemory buf 36⟩
        ⟨readWordFromNetworkByteOrderMemory buf 40, readWordFromNetworkByteOrderMemory buf 44⟩
        b with h | h <;> simp [h]

/-- C10: `Sntp_DeserializeResponse` leaves the caller's output structure
untouched whenever it returns `SntpErrorBadParameter`,
`SntpErrorBufferTooSmall` or `SntpInvalidResponse`; on every other status
the output does not depend on the structure's prior contents (those paths
first clear it to zero). -/
theorem C10_no_write_on_error
    (req rx : Option SntpTimestamp) (buf : Option (List Nat)) (size : Nat)
    (old : Option SntpResponseData) (s : SntpStatus) (out : Option SntpResponseData)
    (hrun : Sntp_DeserializeResponse req rx buf size old = (s, out)) :
    ((s = SntpErrorBadParameter ∨ s = SntpErrorBufferTooSmall ∨ s = SntpInvalidResponse) →
      out = old) ∧
    ((s ≠ SntpErrorBadParameter ∧ s ≠ SntpErrorBufferTooSmall ∧ s ≠ SntpInvalidResponse) →
      ∀ old2 : SntpResponseData,
        (Sntp_DeserializeResponse req rx buf size (some old2)).2 = out) := by
  rcases req with _ | req0 <;> rcases rx with _ | rx0 <;> rcases buf with _ | buf0 <;>
    rcases old with _ | old0 <;>
    first
    | (simp only [Sntp_DeserializeResponse] at hrun
       injection hrun with h1 h2
       subst h1
       subst h2
       exact ⟨fun _ => rfl, fun hne _ => absurd rfl hne.1⟩)
    | skip
  by_cases hsz : size < SNTP_PACKET_BASE_SIZE
  · simp only [Sntp_DeserializeResponse] at hrun
    rw [if_pos hsz] at hrun
    injection hrun with h1 h2
    subst h1
    subst h2
    refine ⟨fun _ => rfl, fun hne _ => absurd rfl hne.2.1⟩
  · by_cases hmode : readByte buf0 0 &&& SNTP_MODE_BITS_MASK = SNTP_MODE_SERVER
    · by_cases hmatch : req0.seconds ≠ readWordFromNetworkByteOrderMemory buf0 24 ∨
          req0.fractions ≠ readWordFromNetworkByteOrderMemory buf0 28
      · simp only [Sntp_DeserializeResponse] at hrun
        rw [if_neg hsz, if_neg (not_not_intro hmode), if_pos rfl, if_pos hmatch,
          if_neg (show SntpInvalidResponse ≠ SntpSuccess from by decide)] at hrun
        injection hrun with h1 h2
        subst h1
        subst h2
        refine ⟨fun _ => rfl, fun hne _ => absurd rfl hne.2.2⟩
      · simp only [Sntp_DeserializeResponse] at hrun
        rw [if_neg hsz, if_neg (not_not_intro hmode), if_pos rfl, if_neg hmatch,
          if_pos rfl] at hrun
        injection hrun with h1 h2
        constructor
        · intro hs
          subst h1
          rcases parse_status_cases buf0 req0 rx0 with h | h | h | h | h <;> simp_all
        · intro hne old2
          simp only [Sntp_DeserializeResponse]
          rw [if_neg hsz, if_neg (not_not_intro hmode), if_pos rfl, if_neg hmatch,
            if_pos rfl]
          exact h2
    · simp only [Sntp_DeserializeResponse] at hrun
      rw [if_neg hsz, if_pos hmode,
        if_neg (show SntpInvalidResponse ≠ SntpSuccess from by decide),
        if_neg (show SntpInvalidResponse ≠ SntpSuccess from by decide)] at hrun
      injection hrun with h1 h2
      subst h1
      subst h2
      refine ⟨fun _ => rfl, fun hne _ => absurd rfl hne.2.2⟩

theorem C10_no_write_on_error_witness :
    (Sntp_DeserializeResponse (some ⟨0, 0⟩) (some ⟨0, 0⟩) (some []) 10
        (some SntpResponseData.zero) = (SntpErrorBufferTooSmall, some SntpResponseData.zero)) ∧
    (((SntpErrorBufferTooSmall = SntpErrorBadParameter ∨
        SntpErrorBufferTooSmall = SntpErrorBufferTooSmall ∨
        SntpErrorBufferTooSmall = SntpInvalidResponse) →
        some SntpResponseData.zero = some SntpResponseData.zero) ∧
     ((SntpErrorBufferTooSmall ≠ SntpErrorBadParameter ∧
        SntpErrorBufferTooSmall ≠ SntpErrorBufferTooSmall ∧
        SntpErrorBufferTooSmall ≠ SntpInvalidResponse) →
        ∀ old2 : SntpResponseData,
          (Sntp_DeserializeResponse (some ⟨0, 0⟩) (some ⟨0, 0⟩) (some []) 10 (some old2)).2 =
            some SntpResponseData.zero)) :=
  ⟨by decide,
   C10_no_write_on_error (some ⟨0, 0⟩) (some ⟨0, 0⟩) (some []) 10 (some SntpResponseData.zero)
     SntpErrorBufferTooSmall (some SntpResponseData.zero) (by decide)⟩

/-! ### Client engine lemmas -/

theorem processServerResponse_spec (env : ClientEnv) (ctx : SntpContext)
    (t : SntpTimestamp) (h : HookTrace)
    (hauth : env.authValStatus = SntpSuccess ∨ env.authValStatus = SntpErrorAuthFailure ∨
      env.authValStatus = SntpServerNotAuthenticated) :
    ((processServerResponse env ctx t h).1 = SntpRejectedResponse →
      (processServerResponse env ctx t h).2.1.currentServerIndex =
        ctx.currentServerIndex + 1) ∧
    ((processServerResponse env ctx t h).1 ≠ SntpRejectedResponse →
      (processServerResponse env ctx t h).2.1.currentServerIndex = ctx.currentServerIndex) ∧
    (processServerResponse env ctx t h).1 ≠ SntpNoResponseReceived := by
  simp only [processServerResponse]
  split_ifs <;> rcases hauth with ha | ha | ha <;> simp_all

theorem recvLoop_status (env : ClientEnv) :
    ∀ fuel br st t buf h s buf2 h2,
      receiveSntpResponseLoop env fuel br st t buf h = some (s, buf2, h2) →
      s = st ∨ s = SntpErrorNetworkFailure := by
  intro fuel
  induction fuel with
  | zero =>
    intro br st t buf h s buf2 h2 hrun
    simp [receiveSntpResponseLoop] at hrun
  | succ n ih =>
    intro br st t buf h s buf2 h2 hrun
    simp only [receiveSntpResponseLoop] at hrun
    split_ifs at hrun
    · exact ih _ _ _ _ _ _ _ _ hrun
    · rcases ih _ _ _ _ _ _ _ _ hrun with h | h
      · exact Or.inr h
      · exact Or.inr h
    · exact ih _ _ _ _ _ _ _ _ hrun
    · rcases ih _ _ _ _ _ _ _ _ hrun with h | h
      · exact Or.inr h
      · exact Or.inr h
    · injection hrun with h1
      injection h1 with h1 h2
      exact Or.inl h1.symm

theorem receiveSntpResponse_status (env : ClientEnv) (fuel responseSize : Nat)
    (buf : List Nat) (h : HookTrace) (s : SntpStatus) (buf2 : List Nat) (h2 : HookTrace)
    (hrun : receiveSntpResponse env fuel responseSize buf h = some (s, buf2, h2)) :
    s = SntpSuccess ∨ s = SntpNoResponseReceived ∨ s = SntpErrorNetworkFailure := by
  simp only [receiveSntpResponse] at hrun
  split_ifs at hrun
  · rcases recvLoop_status env _ _ _ _ _ _ _ _ _ hrun with h | h
    · exact Or.inl h
    · exact Or.inr (Or.inr h)
  · injection hrun with h1
    injection h1 with h1 h2
    exact Or.inr (Or.inl h1.symm)
  · injection hrun with h1
    injection h1 with h1 h2
    exact Or.inr (Or.inr h1.symm)

theorem receiveLoop_index (env : ClientEnv) (blockTimeMs : Nat)
    (hauth : env.authValStatus = SntpSuccess ∨ env.authValStatus = SntpErrorAuthFailure ∨
      env.authValStatus = SntpServerNotAuthenticated) :
    ∀ fuel ctx startTime h s ctx2 h2,
      receiveTimeResponseLoop env blockTimeMs fuel ctx startTime h = some (s, ctx2, h2) →
      (s = SntpRejectedResponse → ctx2.currentServerIndex = ctx.currentServerIndex + 1) ∧
      (s ≠ SntpRejectedResponse → ctx2.currentServerIndex = ctx.currentServerIndex) := by
  intro fuel
  induction fuel with
  | zero =>
    intro ctx startTime h s ctx2 h2 hrun
    simp [receiveTimeResponseLoop] at hrun
  | succ n ih =>
    intro ctx startTime h s ctx2 h2 hrun
    simp only [receiveTimeResponseLoop] at hrun
    rcases hrs : receiveSntpResponse env (n + 1) ctx.sntpPacketSize ctx.pNetworkBuffer h with
      _ | r0
    · rw [hrs] at hrun
      simp at hrun
    · rw [hrs] at hrun
      obtain ⟨status0, buf2, h1⟩ := r0
      simp only at hrun
      obtain ⟨hrej, hnrej, hnnr⟩ := processServerResponse_spec env
        { ctx with pNetworkBuffer := buf2 } (hookGetTime env h1).1 (hookGetTime env h1).2 hauth
      rcases receiveSntpResponse_status env _ _ _ _ _ _ _ hrs with hS | hS | hS
      · subst hS
        rw [if_pos rfl] at hrun
        split_ifs at hrun with hc
        · exact absurd hc.1 hnnr
        · injection hrun with h3
          have e1 := congrArg (fun q => q.1) h3
          have e2 := congrArg (fun q => q.2.1.currentServerIndex) h3
          simp only at e1 e2
          refine ⟨fun hx => ?_, fun hx => ?_⟩
          · rw [← e2]
            exact hrej (e1.trans hx)
          · rw [← e2]
            exact hnrej (fun hk => hx (e1.symm.trans hk))
      · subst hS
        rw [if_neg (show SntpNoResponseReceived ≠ SntpSuccess from by decide)] at hrun
        split_ifs at hrun with hto hc hc
        · exact absurd hc.1 (by decide)
        · injection hrun with h3
          have e1 := congrArg (fun q => q.1) h3
          have e2 := congrArg (fun q => q.2.1.currentServerIndex) h3
          simp only at e1 e2
          exact ⟨fun hx => absurd (e1.trans hx) (by decide), fun hx => e2.symm⟩
        · have hih := ih _ _ _ _ _ _ hrun
          exact hih
        · injection hrun with h3
          have e1 := congrArg (fun q => q.1) h3
          have e2 := congrArg (fun q => q.2.1.currentServerIndex) h3
          simp only at e1 e2
          exact ⟨fun hx => absurd (e1.trans hx) (by decide), fun hx => e2.symm⟩
      · subst hS
        rw [if_neg (show SntpErrorNetworkFailure ≠ SntpSuccess from by decide)] at hrun
        split_ifs at hrun with hto hc hc
        · exact absurd hc.1 (by decide)
        · injection hrun with h3
          have e1 := congrArg (fun q => q.1) h3
          have e2 := congrArg (fun q => q.2.1.currentServerIndex) h3
          simp only at e1 e2
          exact ⟨fun hx => absurd (e1.trans hx) (by decide), fun hx => e2.symm⟩
        · exact absurd hc.1 (by decide)
        · injection hrun with h3
          have e1 := congrArg (fun q => q.1) h3
          have e2 := congrArg (fun q => q.2.1.currentServerIndex) h3
          simp only at e1 e2
          exact ⟨fun hx => absurd (e1.trans hx) (by decide), fun hx => e2.symm⟩

/-- C6: Under the authentication hook's contract (it returns success,
auth-failure or not-authenticated), a `Sntp_ReceiveTimeResponse` call
returning the collapsed `SntpRejectedResponse` — which happens exactly when
the deserialization classified the response as Kiss-o'-Death — advances
`currentServerIndex` by exactly one; a call ending in `SntpInvalidResponse`,
response timeout or network failure leaves it unchanged; and once
`currentServerIndex` equals `numOfServers`, both `Sntp_SendTimeRequest` and
`Sntp_ReceiveTimeResponse` return `SntpErrorChangeServer` with the context
and hook trace untouched (no network or clock operation is performed). -/
theorem C6_server_rotation (env : ClientEnv) (fuel : Nat) (ctx : SntpContext)
    (blockTimeMs randomNumber : Nat) (h : HookTrace)
    (s : SntpStatus) (ctx2 : SntpContext) (h2 : HookTrace)
    (hauth : env.authValStatus = SntpSuccess ∨ env.authValStatus = SntpErrorAuthFailure ∨
      env.authValStatus = SntpServerNotAuthenticated)
    (hrun : Sntp_ReceiveTimeResponse env fuel ctx blockTimeMs h = some (s, ctx2, h2)) :
    ((s = SntpRejectedResponse → ctx2.currentServerIndex = ctx.currentServerIndex + 1) ∧
     ((s = SntpInvalidResponse ∨ s = SntpErrorResponseTimeout ∨ s = SntpErrorNetworkFailure) →
        ctx2.currentServerIndex = ctx.currentServerIndex)) ∧
    (ctx.currentServerIndex = ctx.numOfServers →
      Sntp_ReceiveTimeResponse env fuel ctx blockTimeMs h =
        some (SntpErrorChangeServer, ctx, h) ∧
      Sntp_SendTimeRequest env fuel ctx randomNumber h =
        some (SntpErrorChangeServer, ctx, h)) := by
  constructor
  · simp only [Sntp_ReceiveTimeResponse] at hrun
    by_cases hex : ctx.currentServerIndex ≥ ctx.numOfServers
    · rw [if_pos hex] at hrun
      injection hrun with h3
      have e1 := congrArg (fun q => q.1) h3
      have e2 := congrArg (fun q => q.2.1.currentServerIndex) h3
      simp only at e1 e2
      exact ⟨fun hx => absurd (e1.trans hx) (by decide), fun _ => e2.symm⟩
    · rw [if_neg hex] at hrun
      obtain ⟨i1, i2⟩ := receiveLoop_index env blockTimeMs hauth fuel ctx
        (hookGetTime env h).1 (hookGetTime env h).2 s ctx2 h2 hrun
      refine ⟨i1, fun hx => i2 ?_⟩
      intro heq
      rw [heq] at hx
      rcases hx with hx | hx | hx <;> exact absurd hx (by decide)
  · intro hex
    constructor
    · simp only [Sntp_ReceiveTimeResponse]
      rw [if_pos (show ctx.currentServerIndex ≥ ctx.numOfServers from by omega)]
    · simp only [Sntp_SendTimeRequest]
      rw [if_pos (show ctx.currentServerIndex ≥ ctx.numOfServers from by omega)]

theorem C6_server_rotation_witness :
    ((idleEnv.authValStatus = SntpSuccess ∨ idleEnv.authValStatus = SntpErrorAuthFailure ∨
        idleEnv.authValStatus = SntpServerNotAuthenticated) ∧
      Sntp_ReceiveTimeResponse idleEnv 1
        ⟨1, 1, 1000, ⟨0, 0⟩, List.replicate 48 0, 48, 48, false, false, 0⟩ 0 initialHookTrace =
        some (SntpErrorChangeServer,
          ⟨1, 1, 1000, ⟨0, 0⟩, List.replicate 48 0, 48, 48, false, false, 0⟩,
          initialHookTrace)) ∧
    (((SntpErrorChangeServer = SntpRejectedResponse →
        (⟨1, 1, 1000, ⟨0, 0⟩, List.replicate 48 0, 48, 48, false, false, 0⟩ :
          SntpContext).currentServerIndex =
        (⟨1, 1, 1000, ⟨0, 0⟩, List.replicate 48 0, 48, 48, false, false, 0⟩ :
          SntpContext).currentServerIndex + 1) ∧
      ((SntpErrorChangeServer = SntpInvalidResponse ∨
        SntpErrorChangeServer = SntpErrorResponseTimeout ∨
        SntpErrorChangeServer = SntpErrorNetworkFailure) →
        (⟨1, 1, 1000, ⟨0, 0⟩, List.replicate 48 0, 48, 48, false, false, 0⟩ :
          SntpContext).currentServerIndex =
        (⟨1, 1, 1000, ⟨0, 0⟩, List.replicate 48 0, 48, 48, false, false, 0⟩ :
          SntpContext).currentServerIndex)) ∧
     ((⟨1, 1, 1000, ⟨0, 0⟩, List.replicate 48 0, 48, 48, false, false, 0⟩ :
          SntpContext).currentServerIndex =
      (⟨1, 1, 1000, ⟨0, 0⟩, List.replicate 48 0, 48, 48, false, false, 0⟩ :
          SntpContext).numOfServers →
       Sntp_ReceiveTimeResponse idleEnv 1
          ⟨1, 1, 1000, ⟨0, 0⟩, List.replicate 48 0, 48, 48, false, false, 0⟩ 0
          initialHookTrace =
         some (SntpErrorChangeServer,
           ⟨1, 1, 1000, ⟨0, 0⟩, List.replicate 48 0, 48, 48, false, false, 0⟩,
           initialHookTrace) ∧
       Sntp_SendTimeRequest idleEnv 1
          ⟨1, 1, 1000, ⟨0, 0⟩, List.replicate 48 0, 48, 48, false, false, 0⟩ 7
          initialHookTrace =
         some (SntpErrorChangeServer,
           ⟨1, 1, 1000, ⟨0, 0⟩, List.replicate 48 0, 48, 48, false, false, 0⟩,
           initialHookTrace))) :=
  ⟨⟨by decide, by decide⟩,
   C6_server_rotation idleEnv 1
     ⟨1, 1, 1000, ⟨0, 0⟩, List.replicate 48 0, 48, 48, false, false, 0⟩ 0 7
     initialHookTrace SntpErrorChangeServer
     ⟨1, 1, 1000, ⟨0, 0⟩, List.replicate 48 0, 48, 48, false, false, 0⟩ initialHookTrace
     (by decide) (by decide)⟩

/-- On `zeroReadEnv` the drain loop of `receiveSntpResponse` never
terminates: each iteration reads zero bytes, never calls the get-time hook,
and compares the loop base time against the uninitialized `currentTime`
object (whose indeterminate value equals the base time), so the polling
timeout never fires no matter how far the hook clock has advanced. -/
theorem zeroReadEnv_drain_diverges :
    ∀ fuel k, receiveSntpResponseLoop zeroReadEnv fuel 47 SntpSuccess ⟨10, 0⟩
      (List.replicate 48 0) ⟨1, k + 1, 0, 0, 0, []⟩ = none := by
  intro fuel
  induction fuel with
  | zero => intro k; rfl
  | succ n ih =>
    intro k
    have hstep : receiveSntpResponseLoop zeroReadEnv (n + 1) 47 SntpSuccess ⟨10, 0⟩
        (List.replicate 48 0) ⟨1, k + 1, 0, 0, 0, []⟩ =
        receiveSntpResponseLoop zeroReadEnv n 47 SntpSuccess ⟨10, 0⟩
          (List.replicate 48 0) ⟨1, k + 1 + 1, 0, 0, 0, []⟩ := rfl
    rw [hstep]
    exact ih (k + 1)

/-- C7: the claim that the drain loop gives up with the network-failure
error once zero-reads span `SNTP_RECV_POLLING_TIMEOUT_MS` of get-time-hook
time fails on this source: the zero-read branch never calls the get-time
hook and instead measures elapsed time from an uninitialized stack object.
On `zeroReadEnv` — positive one-byte peek, all further reads zero, the hook
clock advancing 10000 ms (ten times the 1000 ms polling timeout) per call,
and the indeterminate stack value equal to the loop base time — the
operation never returns at all (it exhausts any amount of fuel), instead of
giving up with `SntpErrorNetworkFailure`. -/
theorem C7_recv_polling_timeout_ignores_time_hook :
    ∀ fuel : Nat,
      receiveSntpResponse zeroReadEnv fuel 48 (List.replicate 48 0) initialHookTrace =
        none := by
  intro fuel
  have hstep : receiveSntpResponse zeroReadEnv fuel 48 (List.replicate 48 0)
      initialHookTrace =
      receiveSntpResponseLoop zeroReadEnv fuel 47 SntpSuccess ⟨10, 0⟩
        (List.replicate 48 0) ⟨1, 0 + 1, 0, 0, 0, []⟩ := rfl
  rw [hstep]
  exact zeroReadEnv_drain_diverges fuel 0

end CoreSntp
